import Mathlib

/-!
Shallow embedding of the bplib Bundle Protocol core (jpswinski/bplib).

The BPv6 channel engine is translated from `src/src/bplib.c`; the BPv7
custody cache is translated from the `v7_cache_custody.c` / `v7_cache.c`
sources provided under `src/unnamed/part_002`.  Collaborators that the
repository consumes through narrow interfaces (the storage service, the
red-black tree container, the SDNV/codec layer, libc's `strtoul`) are not
part of the provided sources; where one of them is needed it is modelled
from the spec's contract and marked `Modelled from the spec:` in its doc
comment.

Machine integers: the C code uses `uint32_t` custody-id counters and
creation times.  Creation-time plus lifetime additions and sequence
increments are taken mod 2^32 exactly where the C code performs uint32
arithmetic.  Custody-id counters are modelled as unbounded naturals: the
claims under study concern windows bounded by the active-table size, far
below the 2^32 wrap of the C counters.
-/

namespace Bplib

/-- Result codes.  `bplib.h` is not among the provided sources; the numeric
values are modelled from the spec's error taxonomy (section 7): `BP_SUCCESS`
positive, `BP_TIMEOUT` zero ("TIMEOUT is not an error"), every failure a
distinct negative code.  The engine only tests sign and equality of these. -/
def BP_SUCCESS : Int := 1

def BP_TIMEOUT : Int := 0

def BP_PARMERR : Int := -1

def BP_UNSUPPORTED : Int := -2

def BP_EXPIRED : Int := -3

def BP_DROPPED : Int := -4

def BP_INVALIDEID : Int := -5

def BP_OVERFLOW : Int := -6

def BP_WRONGORIGINATION : Int := -7

def BP_WRONGCHANNEL : Int := -8

def BP_BUNDLETOOLARGE : Int := -9

def BP_PAYLOADTOOLARGE : Int := -10

def BP_BUNDLEPARSEERR : Int := -11

def BP_UNKNOWNREC : Int := -12

def BP_IGNORE : Int := -13

def BP_FAILEDINTEGRITYCHECK : Int := -14

def BP_FAILEDSTORE : Int := -15

def BP_FAILEDMEM : Int := -16

def BP_FAILEDRESPONSE : Int := -17

def BP_FAILEDOS : Int := -18

/-- Side-band flag bit masks (spec section 7 lists them in this order;
`bplib.h` is not among the provided sources, so the bit positions are
modelled as distinct powers of two). -/
def BP_FLAG_NONCOMPLIANT : Nat := 1

def BP_FLAG_INCOMPLETE : Nat := 2

def BP_FLAG_ROUTENEEDED : Nat := 4

def BP_FLAG_ACTIVETABLEWRAP : Nat := 8

def BP_FLAG_SDNVOVERFLOW : Nat := 16

def BP_FLAG_SDNVINCOMPLETE : Nat := 32

def BP_FLAG_STOREFAILURE : Nat := 64

def BP_FLAG_RBTREEFULL : Nat := 128

def BP_FLAG_DUPLICATES : Nat := 256

def BP_FLAG_MIXEDRESPONSE : Nat := 512

def BP_FLAG_TOOMANYSOURCES : Nat := 1024

/-- Wrap responses (`BP_WRAP_RESEND` / `BP_WRAP_BLOCK` / `BP_WRAP_DROP`). -/
def BP_WRAP_RESEND : Nat := 0

def BP_WRAP_BLOCK : Nat := 1

def BP_WRAP_DROP : Nat := 2

/-- Administrative record types (spec section 6: `ACS = 4`, `CS = 2`,
`STATUS = 1`). -/
def BP_ACS_REC_TYPE : Nat := 4

def BP_CS_REC_TYPE : Nat := 2

def BP_STAT_REC_TYPE : Nat := 1

def UINT32_MOD : Nat := 4294967296

/-- Modelled from the spec: the pluggable storage service (section 4.3).
A handle holds a FIFO of storage ids awaiting `dequeue` plus the map of
live (not yet relinquished) records; `enqueue` times out once `maxRecs`
records are live, `dequeue` times out when the FIFO is empty, `retrieve`
is a random-access read by sid, `relinquish` frees the sid. -/
structure BpStore (α : Type) where
  queue : List Nat
  live : List (Nat × α)
  nextSid : Nat
  maxRecs : Nat
deriving Repr, DecidableEq

/-- Lookup of a live record by storage id. -/
def storeLookup {α : Type} : List (Nat × α) → Nat → Option α
  | [], _ => none
  | (k, v) :: t, s => if k = s then some v else storeLookup t s

/-- Storage `enqueue`: appends one record, returning a positive status on
success and `BP_TIMEOUT` when the handle is at capacity. -/
def bp_enqueue {α : Type} (st : BpStore α) (r : α) : Int × BpStore α :=
  if st.live.length < st.maxRecs then
    (BP_SUCCESS,
      { st with queue := st.queue ++ [st.nextSid],
                live := st.live ++ [(st.nextSid, r)],
                nextSid := st.nextSid + 1 })
  else (BP_TIMEOUT, st)

/-- Storage `dequeue`: removes the FIFO head; the record stays live until
relinquished.  An empty FIFO yields `BP_TIMEOUT`. -/
def bp_dequeue {α : Type} (st : BpStore α) : Int × Option (Nat × α) × BpStore α :=
  match st.queue with
  | [] => (BP_TIMEOUT, none, st)
  | s :: rest =>
    match storeLookup st.live s with
    | some r => (BP_SUCCESS, some (s, r), { st with queue := rest })
    | none => (BP_FAILEDSTORE, none, { st with queue := rest })

/-- Storage `retrieve`: random-access read by sid, without removal. -/
def bp_retrieve {α : Type} (st : BpStore α) (s : Nat) : Int × Option α :=
  match storeLookup st.live s with
  | some r => (BP_SUCCESS, some r)
  | none => (BP_FAILEDSTORE, none)

/-- Storage `relinquish`: frees the record held under `s`. -/
def bp_relinquish {α : Type} (st : BpStore α) (s : Nat) : BpStore α :=
  { st with live := st.live.filter (fun kv => kv.fst ≠ s) }

/-- In-place update of a live record (the engine mutates a retrieved record
through the pointer the storage service returned, e.g. the custody-id SDNV
patch in `bplib_load`). -/
def storeUpdate {α : Type} (st : BpStore α) (s : Nat) (r : α) : BpStore α :=
  { st with live := st.live.map (fun kv => if kv.fst = s then (s, r) else kv) }

/-- Snapshot of `bp_bundle_store_t` (src/src/bplib.c lines 86-95) as stored
with each enqueued fragment.  The raw 128-byte header buffer is not
modelled; the SDNV values the engine reads or writes through it
(`exprtime`, `cidsdnv`, the fragmentation fields, creation time and
sequence) are carried directly.  `cteboffset` retains only the property the
engine tests, namely whether it is zero (no custody block). -/
structure StoredBundle where
  exprtime : Nat
  cteboffset : Nat
  cidValue : Nat
  bundlesize : Nat
  fragoffset : Nat
  paylen : Nat
  fragsize : Nat
  createsec : Nat
  createseq : Nat
deriving Repr, DecidableEq

/-- Payload storage block `bp_payload_store_t` (src/src/bplib.c lines 80-83). -/
structure StoredPayload where
  request_custody : Bool
  payloadsize : Nat
deriving Repr, DecidableEq

/-- Primary block logical fields `bp_blk_pri_t` (values of the SDNVs; the
byte-level codec is outside the provided sources). -/
structure BpBlkPri where
  dstnode : Nat
  dstserv : Nat
  srcnode : Nat
  srcserv : Nat
  rptnode : Nat
  rptserv : Nat
  cstnode : Nat
  cstserv : Nat
  createsec : Nat
  createseq : Nat
  lifetime : Nat
  dictlen : Nat
  fragoffset : Nat
  paylen : Nat
  is_admin_rec : Bool
  request_custody : Bool
  allow_frag : Bool
  is_frag : Bool
  integrity_check : Bool
deriving Repr, DecidableEq

/-- Custody transfer enhancement block `bp_blk_cteb_t` logical fields. -/
structure CtebBlk where
  cid : Nat
  cstnode : Nat
  cstserv : Nat
deriving Repr, DecidableEq

/-- Modelled from the spec: the red-black tree container (`rb_tree.c` is
outside the provided sources).  The spec describes the DACS tree as "a set
(red-black tree) of custody-ids" with a maximum size; it is modelled as a
duplicate-free list bounded by `max_size`. -/
structure RbTree where
  max_size : Nat
  nodes : List Nat
deriving Repr, DecidableEq

inductive RbStatus where
  | success
  | duplicate
  | full
deriving Repr, DecidableEq

/-- Insertion into the custody-id set: duplicates are reported, as is a
full tree. -/
def rb_tree_insert (v : Nat) (t : RbTree) : RbStatus × RbTree :=
  if t.nodes.contains v then (RbStatus.duplicate, t)
  else if t.max_size ≤ t.nodes.length then (RbStatus.full, t)
  else (RbStatus.success, { t with nodes := t.nodes ++ [v] })

def rb_tree_is_empty (t : RbTree) : Bool := t.nodes.isEmpty

/-- Open DACS accumulator `bp_dacs_bundle_t` (src/src/bplib.c lines
112-124): remote custodian, the pending custody-id tree, the delivered
flag, the last-sent time, and the primary-block fields the engine writes
(`dstnode`/`dstserv` via `initialize_dacs_bundle`, `createseq` bumped per
stored DACS). -/
structure BpDacsBundle where
  cstnode : Nat
  cstserv : Nat
  tree : RbTree
  delivered : Bool
  last_dacs : Nat
  dstnode : Nat
  dstserv : Nat
  createseq : Nat
deriving Repr, DecidableEq

instance : Inhabited BpDacsBundle :=
  ⟨{ cstnode := 0, cstserv := 0, tree := { max_size := 0, nodes := [] },
     delivered := false, last_dacs := 0, dstnode := 0, dstserv := 0, createseq := 0 }⟩

/-- Statistics counters `bp_stats_t`. -/
structure BpStats where
  generated : Nat
  transmitted : Nat
  retransmitted : Nat
  received : Nat
  delivered : Nat
  acknowledged : Nat
  expired : Nat
  lost : Nat
  active : Nat
deriving Repr, DecidableEq

/-- Active table `bp_active_table_t` (src/src/bplib.c lines 129-134); the
`sid` ring holds `none` for `BP_SID_VACANT`. -/
structure ActiveTable where
  sid : List (Option Nat)
  retx : List Nat
  oldest_cid : Nat
  current_cid : Nat
deriving Repr, DecidableEq

/-- Channel control block `bp_channel_t` (src/src/bplib.c lines 137-167),
restricted to the state the embedded operations read or write.  The data
bundle's custody-block template cid (`data_cteb_cid`) is the value
`initialize_forw_bundle` copies into `cidsdnv` before `bplib_load`
overwrites it. -/
structure BpChannel where
  attributes_active_table_size : Nat
  attributes_max_concurrent_dacs : Nat
  attributes_max_fills_per_dacs : Nat
  attributes_max_tree_size : Nat
  local_node : Nat
  local_service : Nat
  data_pri : BpBlkPri
  data_maxlength : Nat
  data_originate : Bool
  data_cteb_cid : Nat
  dacs_bundle : List BpDacsBundle
  active_table : ActiveTable
  stats : BpStats
  timeout : Nat
  proc_admin_only : Bool
  wrap_response : Nat
  cid_reuse : Bool
  dacs_rate : Nat
deriving Repr, DecidableEq

/-- The three storage handles of a channel (data, payload, DACS). -/
structure Stores where
  data : BpStore StoredBundle
  payload : BpStore StoredPayload
  dacs : BpStore StoredBundle
deriving Repr, DecidableEq

/-- Nominal stand-in for the serialized header length the external codec
produces (`ds->headersize`); the engine only adds it to the fragment size
to obtain `bundlesize`. -/
def MODEL_HEADER_SIZE : Nat := 52

/-- Enqueue loop of `store_data_bundle` (src/src/bplib.c lines 463-497):
chunks the payload into fragments of at most `maxlength` bytes, writing
`fragoffset`/`paylen` into the header when `is_frag` is set, and enqueues
each fragment.  The C loop does not terminate when `maxlength = 0` and the
payload is non-empty; the fuel argument (always called with `paysize + 1`)
makes that case return `BP_FAILEDOS` instead. -/
def store_data_fragloop (maxlength paysize : Nat) (cidInit exprt : Nat) :
    Nat → Nat → BpBlkPri → BpStore StoredBundle →
    Int × BpBlkPri × BpStore StoredBundle
  | 0, _, pri, store => (BP_FAILEDOS, pri, store)
  | fuel + 1, payload_offset, pri, store =>
    if payload_offset < paysize then
      let payload_remaining := paysize - payload_offset
      let fragment_size := if maxlength < payload_remaining then maxlength else payload_remaining
      let pri1 := if pri.is_frag then
          { pri with fragoffset := payload_offset, paylen := paysize } else pri
      let rec1 : StoredBundle :=
        { exprtime := exprt,
          cteboffset := if pri1.request_custody then 1 else 0,
          cidValue := cidInit,
          bundlesize := MODEL_HEADER_SIZE + fragment_size,
          fragoffset := pri1.fragoffset,
          paylen := pri1.paylen,
          fragsize := fragment_size,
          createsec := pri1.createsec,
          createseq := pri1.createseq }
      let en := bp_enqueue store rec1
      if en.fst ≤ 0 then (en.fst, pri1, en.snd)
      else store_data_fragloop maxlength paysize cidInit exprt fuel
             (payload_offset + fragment_size) pri1 en.snd
    else (BP_SUCCESS, pri, store)

/-- Creation-time stamping of `store_data_bundle` (src/src/bplib.c lines
449-457): an originated bundle gets the current system time as creation
time (the sequence was set by the caller/previous store). -/
def bundle_stamp (originate : Bool) (pri : BpBlkPri) (sysnow : Nat) : BpBlkPri :=
  if originate then { pri with createsec := sysnow } else pri

/-- Expiration time computed by `store_data_bundle` (src/src/bplib.c lines
459-461): `createsec + lifetime` as uint32, or zero for infinite lifetime. -/
def bundle_exprtime (pri : BpBlkPri) : Nat :=
  if pri.lifetime ≠ 0 then (pri.createsec + pri.lifetime) % UINT32_MOD else 0

/-- Tail of `store_data_bundle` (src/src/bplib.c lines 499-503): the
creation sequence advances (as uint32) only when every fragment was
successfully enqueued and the bundle is originated. -/
def store_data_finish (originate : Bool) (r : Int × BpBlkPri × BpStore StoredBundle) :
    Int × BpBlkPri × BpStore StoredBundle :=
  if r.fst = BP_SUCCESS then
    if originate then
      (BP_SUCCESS, { r.snd.fst with createseq := (r.snd.fst.createseq + 1) % UINT32_MOD },
        r.snd.snd)
    else (BP_SUCCESS, r.snd.fst, r.snd.snd)
  else r

/-- `store_data_bundle` (src/src/bplib.c lines 434-504): rejects an
unfragmented over-length payload, stamps creation time for originated
bundles, computes the expiration time, enqueues every fragment, and
advances the creation sequence only after all fragments were stored. -/
def store_data_bundle (pri0 : BpBlkPri) (maxlength : Nat) (originate : Bool)
    (cidInit : Nat) (paysize : Nat) (store : BpStore StoredBundle)
    (sysnow : Nat) : Int × BpBlkPri × BpStore StoredBundle :=
  if !pri0.is_frag ∧ maxlength < paysize then
    (BP_BUNDLETOOLARGE, pri0, store)
  else
    store_data_finish originate
      (store_data_fragloop maxlength paysize cidInit
        (bundle_exprtime (bundle_stamp originate pri0 sysnow)) (paysize + 1) 0
        (bundle_stamp originate pri0 sysnow) store)

/-- `bplib_store` (src/src/bplib.c lines 1305-1338): rejects origination on
a forwarding channel, stores the data bundle, and counts `generated` on
success.  The handle-registry parameter checks guard arguments that do not
exist in the embedding. -/
def bplib_store (ch : BpChannel) (st : Stores) (paysize : Nat) (sysnow : Nat) :
    Int × BpChannel × Stores :=
  if !ch.data_originate then (BP_WRONGORIGINATION, ch, st)
  else
    let r := store_data_bundle ch.data_pri ch.data_maxlength true 0 paysize st.data sysnow
    let stats1 := if r.fst = BP_SUCCESS then
        { ch.stats with generated := ch.stats.generated + 1 }
      else ch.stats
    let ch1 := { ch with data_pri := r.snd.fst, stats := stats1 }
    (r.fst, ch1, { st with data := r.snd.snd })

/-- `try_dacs_insert` (src/src/bplib.c lines 649-672): attempts an
insertion into the DACS tree; a full tree sets `BP_FLAG_RBTREEFULL` and
asks for the DACS to be stored, a duplicate sets `BP_FLAG_DUPLICATES` and
does not; the boolean result is "store this DACS now". -/
def try_dacs_insert (value : Nat) (dacs : BpDacsBundle) (flags : Nat) :
    Bool × BpDacsBundle × Nat :=
  match rb_tree_insert value dacs.tree with
  | (RbStatus.full, t) => (true, { dacs with tree := t }, flags ||| BP_FLAG_RBTREEFULL)
  | (RbStatus.duplicate, t) => (false, { dacs with tree := t }, flags ||| BP_FLAG_DUPLICATES)
  | (RbStatus.success, t) => (false, { dacs with tree := t }, flags)

/-- One pass of the `store_dacs_bundles` drain loop (src/src/bplib.c lines
561-636).  The ACS record encoder `bplib_rec_acs_write` is outside the
provided sources; it is modelled from the spec as draining up to
`max_fills_per_dacs` custody ids per DACS bundle (each custody id counted
as one fill).  A failed enqueue keeps the first failing status (the C code
assigns `enstat_fail` only on the first failure), sets no `last_dacs`, and
the loop continues until the tree is drained.  DACS bundle stores carry
`exprtime = 0`: `initialize_dacs_bundle` zeroes the store and nothing ever
sets a DACS expiration. -/
def store_dacs_loop (maxFills : Nat) (sysnow : Nat) :
    Nat → BpDacsBundle → BpStore StoredBundle → Nat → Int → Bool →
    BpDacsBundle × BpStore StoredBundle × Nat × Int × Bool
  | 0, d, store, flags, failStat, hasFail => (d, store, flags, failStat, hasFail)
  | fuel + 1, d, store, flags, failStat, hasFail =>
    if d.tree.nodes.isEmpty then (d, store, flags, failStat, hasFail)
    else
      let chunk := min (max maxFills 1) d.tree.nodes.length
      let rec1 : StoredBundle :=
        { exprtime := 0, cteboffset := 0, cidValue := 0,
          bundlesize := MODEL_HEADER_SIZE + 2 * chunk,
          fragoffset := 0, paylen := 0, fragsize := 0,
          createsec := sysnow, createseq := d.createseq }
      let d1 := { d with
        tree := { d.tree with nodes := d.tree.nodes.drop chunk },
        createseq := (d.createseq + 1) % UINT32_MOD }
      let en := bp_enqueue store rec1
      if en.fst ≤ 0 then
        store_dacs_loop maxFills sysnow fuel d1 en.snd flags
          (if hasFail then failStat else en.fst) true
      else
        store_dacs_loop maxFills sysnow fuel { d1 with last_dacs := sysnow } en.snd
          flags failStat hasFail

/-- `store_dacs_bundles` (src/src/bplib.c lines 561-636): drains the
custody-id tree into one or more DACS bundle stores; on any enqueue
failure the first failing status is returned and `BP_FLAG_STOREFAILURE`
is set, otherwise `BP_SUCCESS`. -/
def store_dacs_bundles (maxFills : Nat) (d : BpDacsBundle)
    (store : BpStore StoredBundle) (sysnow : Nat) (flags : Nat) :
    Int × BpDacsBundle × BpStore StoredBundle × Nat :=
  let r := store_dacs_loop maxFills sysnow (d.tree.nodes.length + 1) d store flags BP_SUCCESS false
  match r with
  | (d1, store1, flags1, failStat, hasFail) =>
    if hasFail then (failStat, d1, store1, flags1 ||| BP_FLAG_STOREFAILURE)
    else (BP_SUCCESS, d1, store1, flags1)

/-- Index of the first open DACS accumulator matching the remote custodian
EID (the search loop at src/src/bplib.c lines 688-697). -/
def findDacs : List BpDacsBundle → Nat → Nat → Option Nat
  | [], _, _ => none
  | d :: t, n, s =>
    if d.cstnode = n ∧ d.cstserv = s then some 0
    else (findDacs t n s).map (fun i => i + 1)

/-- `update_dacs_bundle` (src/src/bplib.c lines 682-752): finds or creates
the accumulator for the event's remote custodian; with no room it sets
`BP_FLAG_TOOMANYSOURCES` and fails with `BP_FAILEDRESPONSE`; a delivered
flag mismatch flushes the accumulator (`BP_FLAG_MIXEDRESPONSE`) before
switching it; otherwise the custody id is inserted, flushing first when
the tree reports full.  `initialize_dacs_bundle` (lines 516-554) is
represented by the destination-EID fields of the fresh accumulator. -/
def update_dacs_bundle (ch : BpChannel) (cteb : CtebBlk) (delivered : Bool)
    (sysnow : Nat) (dacsStore : BpStore StoredBundle) (flags : Nat) :
    Int × BpChannel × BpStore StoredBundle × Nat :=
  match findDacs ch.dacs_bundle cteb.cstnode cteb.cstserv with
  | none =>
    if ch.dacs_bundle.length < ch.attributes_max_concurrent_dacs then
      let d0 : BpDacsBundle :=
        { cstnode := cteb.cstnode, cstserv := cteb.cstserv,
          tree := { max_size := ch.attributes_max_tree_size, nodes := [] },
          delivered := delivered, last_dacs := 0,
          dstnode := cteb.cstnode, dstserv := cteb.cstserv, createseq := 0 }
      let t1 := try_dacs_insert cteb.cid d0 flags
      match t1 with
      | (storeDacs, d1, flags1) =>
        if storeDacs then
          let s2 := store_dacs_bundles ch.attributes_max_fills_per_dacs d1 dacsStore sysnow flags1
          match s2 with
          | (_, d2, store2, flags2) =>
            let t3 := try_dacs_insert cteb.cid { d2 with delivered := delivered } flags2
            (BP_SUCCESS, { ch with dacs_bundle := ch.dacs_bundle ++ [t3.snd.fst] },
              store2, t3.snd.snd)
        else
          (BP_SUCCESS, { ch with dacs_bundle := ch.dacs_bundle ++ [d1] }, dacsStore, flags1)
    else
      (BP_FAILEDRESPONSE, ch, dacsStore, flags ||| BP_FLAG_TOOMANYSOURCES)
  | some i =>
    let d := ch.dacs_bundle.getD i default
    if d.delivered ≠ delivered then
      let s1 := store_dacs_bundles ch.attributes_max_fills_per_dacs d dacsStore sysnow
        (flags ||| BP_FLAG_MIXEDRESPONSE)
      match s1 with
      | (_, d1, store1, flags1) =>
        let t2 := try_dacs_insert cteb.cid { d1 with delivered := delivered } flags1
        (BP_SUCCESS, { ch with dacs_bundle := ch.dacs_bundle.set i t2.snd.fst },
          store1, t2.snd.snd)
    else
      let t1 := try_dacs_insert cteb.cid d flags
      match t1 with
      | (storeDacs, d1, flags1) =>
        if storeDacs then
          let s2 := store_dacs_bundles ch.attributes_max_fills_per_dacs d1 dacsStore sysnow flags1
          match s2 with
          | (_, d2, store2, flags2) =>
            let t3 := try_dacs_insert cteb.cid { d2 with delivered := delivered } flags2
            (BP_SUCCESS, { ch with dacs_bundle := ch.dacs_bundle.set i t3.snd.fst },
              store2, t3.snd.snd)
        else
          (BP_SUCCESS, { ch with dacs_bundle := ch.dacs_bundle.set i d1 }, dacsStore, flags1)

/-- Modelled from the spec: `bplib_rec_acs_process` (the ACS record decoder
lives with the external codec).  Per spec section 4.1.4, each acknowledged
custody id maps to slot `cid mod A`; an occupied slot has its storage id
relinquished and is made vacant, and the acknowledgment count accumulates. -/
def rec_acs_process (tableSize : Nat) :
    List Nat → List (Option Nat) → BpStore StoredBundle →
    Nat × List (Option Nat) × BpStore StoredBundle
  | [], sids, store => (0, sids, store)
  | c :: t, sids, store =>
    let ati := c % tableSize
    match sids.getD ati none with
    | some s =>
      let r := rec_acs_process tableSize t (sids.set ati none) (bp_relinquish store s)
      (r.fst + 1, r.snd.fst, r.snd.snd)
    | none => rec_acs_process tableSize t sids store

/-- Logical content of a received bundle after the external codec parsed
its blocks (`bplib_blk_pri_read` / `_cteb_read` / `_bib_read` /
`_pay_read` are outside the provided sources).  `integrity_ok` carries the
outcome of the external `bplib_blk_bib_verify`; `rec_type` is the first
payload byte of an administrative record and `acs_cids` the custody ids an
ACS payload decodes to.  Unknown canonical block types (handled by the
skip branch of the parse loop) are not represented. -/
structure ParsedBundle where
  pri : BpBlkPri
  cteb_present : Bool
  cteb : CtebBlk
  bib_present : Bool
  integrity_ok : Bool
  paysize : Nat
  rec_type : Nat
  acs_cids : List Nat
deriving Repr, DecidableEq

/-- `bplib_process` (src/src/bplib.c lines 1619-1895) at the level of the
parsed blocks: reception counting, dictionary and lifetime checks,
integrity verification, then the payload dispatch — forward (re-custody
and re-store, updating the pending DACS toward the previous custodian),
wrong channel, administrative records (ACS consumption), admin-only
filtering, or local delivery (payload enqueue, then DACS update marked
delivered).  Success paths return `BP_SUCCESS` where the C code returns
its last positive parse length. -/
def bplib_process (ch0 : BpChannel) (st : Stores) (b : ParsedBundle) (sysnow : Nat) :
    Int × BpChannel × Stores × Nat :=
  let ch := { ch0 with stats := { ch0.stats with received := ch0.stats.received + 1 } }
  if b.pri.dictlen ≠ 0 then
    (BP_UNSUPPORTED, ch, st, BP_FLAG_NONCOMPLIANT)
  else if b.pri.lifetime ≠ 0 ∧ (b.pri.lifetime + b.pri.createsec) % UINT32_MOD ≤ sysnow then
    (BP_EXPIRED, { ch with stats := { ch.stats with expired := ch.stats.expired + 1 } }, st, 0)
  else if b.bib_present ∧ ¬b.integrity_ok then
    (BP_FAILEDINTEGRITYCHECK, ch, st, 0)
  else if b.pri.is_admin_rec ∧ b.paysize < 2 then
    (BP_BUNDLEPARSEERR, ch, st, 0)
  else if b.pri.dstnode ≠ ch.local_node then
    -- forward bundle (dst node differs from local node)
    if ch.data_originate then (BP_WRONGORIGINATION, ch, st, 0)
    else if ch.data_maxlength < b.paysize ∧ ¬b.pri.allow_frag then
      (BP_BUNDLETOOLARGE, ch, st, 0)
    else
      let pri1 := if ch.data_maxlength < b.paysize then { b.pri with is_frag := true } else b.pri
      if pri1.request_custody ∧ ¬b.cteb_present then
        (BP_UNSUPPORTED, ch, st, BP_FLAG_NONCOMPLIANT)
      else
        let pri2 := if pri1.request_custody then
            { pri1 with rptnode := ch.local_node, rptserv := ch.local_service,
                        cstnode := ch.local_node, cstserv := ch.local_service }
          else pri1
        let r := store_data_bundle pri2 ch.data_maxlength false ch.data_cteb_cid
          b.paysize st.data sysnow
        if r.fst = BP_SUCCESS ∧ pri2.request_custody then
          let u := update_dacs_bundle ch b.cteb false sysnow st.dacs 0
          (u.fst, u.snd.fst, { st with data := r.snd.snd, dacs := u.snd.snd.fst },
            u.snd.snd.snd)
        else (r.fst, ch, { st with data := r.snd.snd }, 0)
  else if ch.local_service ≠ 0 ∧ b.pri.dstserv ≠ ch.local_service then
    (BP_WRONGCHANNEL, ch, st, 0)
  else if b.pri.is_admin_rec then
    if b.rec_type = BP_ACS_REC_TYPE then
      let r := rec_acs_process ch.attributes_active_table_size b.acs_cids
        ch.active_table.sid st.data
      let stats1 := if 0 < r.fst then
          { ch.stats with acknowledged := ch.stats.acknowledged + r.fst }
        else ch.stats
      let ch1 := { ch with
        active_table := { ch.active_table with sid := r.snd.fst },
        stats := stats1 }
      (BP_SUCCESS, ch1, { st with data := r.snd.snd }, 0)
    else if b.rec_type = BP_CS_REC_TYPE then (BP_UNSUPPORTED, ch, st, 0)
    else if b.rec_type = BP_STAT_REC_TYPE then (BP_UNSUPPORTED, ch, st, 0)
    else (BP_UNKNOWNREC, ch, st, 0)
  else if ch.proc_admin_only then
    (BP_IGNORE, ch, st, 0)
  else
    -- deliver bundle payload to application
    let reqCust := b.pri.request_custody ∧ b.cteb_present
    let flags1 := if b.pri.request_custody ∧ ¬b.cteb_present then BP_FLAG_NONCOMPLIANT else 0
    let payRec : StoredPayload := { request_custody := reqCust, payloadsize := b.paysize }
    let en := bp_enqueue st.payload payRec
    if 0 < en.fst then
      if reqCust then
        let u := update_dacs_bundle ch b.cteb true sysnow st.dacs flags1
        (BP_SUCCESS, u.snd.fst, { st with payload := en.snd, dacs := u.snd.snd.fst },
          u.snd.snd.snd)
      else (BP_SUCCESS, ch, { st with payload := en.snd }, flags1)
    else (BP_FAILEDSTORE, ch, { st with payload := en.snd }, flags1)

/-- Mutable state threaded through the active-table timeout loop of
`bplib_load` (src/src/bplib.c lines 1401-1516): the table, the data
store, statistics, the selected bundle `ds` (with its storage id), the
last active-table index `ati`, the `newcid` marker, the running status
and flag set, and `broke`, which models the C `break` out of the loop. -/
structure LoopState where
  tbl : ActiveTable
  data : BpStore StoredBundle
  stats : BpStats
  ds : Option (Nat × StoredBundle)
  ati : Nat
  newcid : Bool
  status : Int
  flags : Nat
  broke : Bool
deriving Repr, DecidableEq

/-- Active-table timeout loop of `bplib_load` (src/src/bplib.c lines
1405-1514).  Walks entries from `oldest_cid`: vacant entries advance
`oldest_cid`; an expired entry is relinquished, vacated and counted; a
timed-out entry is selected for retransmission (keeping its slot and cid
under `cid_reuse`, vacating it otherwise); a not-yet-due oldest entry
triggers the wrap check on slot `current_cid mod A` and breaks out, with
`BP_WRAP_RESEND` force-selecting the occupant, `BP_WRAP_BLOCK` recording
`BP_OVERFLOW`, and `BP_WRAP_DROP` relinquishing the occupant.  A failed
retrieve vacates the slot and counts `lost`.  The fuel only bounds the
recursion; every exit the C loop takes is represented. -/
def load_active_loop (A timeoutv : Nat) (cid_reuse : Bool) (wrap : Nat) (sysnow : Nat) :
    Nat → LoopState → LoopState
  | 0, st => st
  | fuel + 1, st =>
    if st.broke = false ∧ st.ds = none ∧ st.tbl.oldest_cid < st.tbl.current_cid then
      let ati := st.tbl.oldest_cid % A
      match st.tbl.sid.getD ati none with
      | none =>
        load_active_loop A timeoutv cid_reuse wrap sysnow fuel
          { st with tbl := { st.tbl with oldest_cid := st.tbl.oldest_cid + 1 }, ati := ati }
      | some s =>
        match (bp_retrieve st.data s).snd with
        | some r =>
          if r.exprtime ≠ 0 ∧ r.exprtime ≤ sysnow then
            load_active_loop A timeoutv cid_reuse wrap sysnow fuel
              { st with
                data := bp_relinquish st.data s,
                tbl := { st.tbl with
                  sid := st.tbl.sid.set ati none,
                  oldest_cid := st.tbl.oldest_cid + 1 },
                stats := { st.stats with expired := st.stats.expired + 1 },
                ati := ati }
          else if timeoutv ≠ 0 ∧ st.tbl.retx.getD ati 0 + timeoutv ≤ sysnow then
            let tbl1 := { st.tbl with oldest_cid := st.tbl.oldest_cid + 1 }
            let stats1 := { st.stats with retransmitted := st.stats.retransmitted + 1 }
            if cid_reuse then
              { st with
                tbl := tbl1, stats := stats1, ds := some (s, r), ati := ati,
                newcid := false }
            else
              { st with
                tbl := { tbl1 with sid := tbl1.sid.set ati none },
                stats := stats1, ds := some (s, r), ati := ati }
          else
            -- oldest active bundle still active: wrap check, then break
            let ati2 := st.tbl.current_cid % A
            match st.tbl.sid.getD ati2 none with
            | none => { st with ati := ati2, broke := true }
            | some s2 =>
              let flags1 := st.flags ||| BP_FLAG_ACTIVETABLEWRAP
              if wrap = BP_WRAP_RESEND then
                let tbl1 := { st.tbl with oldest_cid := st.tbl.oldest_cid + 1 }
                match (bp_retrieve st.data s2).snd with
                | some r2 =>
                  { st with
                    tbl := tbl1, flags := flags1, ds := some (s2, r2), ati := ati2,
                    stats := { st.stats with retransmitted := st.stats.retransmitted + 1 },
                    broke := true }
                | none =>
                  { st with
                    tbl := { tbl1 with sid := tbl1.sid.set ati2 none },
                    data := bp_relinquish st.data s2,
                    flags := flags1 ||| BP_FLAG_STOREFAILURE,
                    stats := { st.stats with lost := st.stats.lost + 1 },
                    ati := ati2, broke := true }
              else if wrap = BP_WRAP_BLOCK then
                { st with flags := flags1, status := BP_OVERFLOW, ati := ati2, broke := true }
              else
                { st with
                  tbl := { st.tbl with
                    sid := st.tbl.sid.set ati2 none,
                    oldest_cid := st.tbl.oldest_cid + 1 },
                  data := bp_relinquish st.data s2,
                  flags := flags1,
                  stats := { st.stats with lost := st.stats.lost + 1 },
                  ati := ati2, broke := true }
        | none =>
          load_active_loop A timeoutv cid_reuse wrap sysnow fuel
            { st with
              data := bp_relinquish st.data s,
              tbl := { st.tbl with sid := st.tbl.sid.set ati none },
              flags := st.flags ||| BP_FLAG_STOREFAILURE,
              stats := { st.stats with lost := st.stats.lost + 1 },
              ati := ati }
    else st

/-- Fresh-dequeue loop of `bplib_load` (src/src/bplib.c lines 1519-1547):
dequeues from the data store, relinquishing and counting expired bundles,
until a live bundle is found, the store times out (`BP_TIMEOUT`), or the
storage service fails (`BP_FAILEDSTORE`, `BP_FLAG_STOREFAILURE`). -/
def load_dequeue_loop (sysnow : Nat) :
    Nat → BpStore StoredBundle → BpStats → Int → Nat →
    BpStore StoredBundle × BpStats × Int × Nat × Option (Nat × StoredBundle)
  | 0, data, stats, status, flags => (data, stats, status, flags, none)
  | fuel + 1, data, stats, status, flags =>
    match bp_dequeue data with
    | (dstat, got, data1) =>
      match got with
      | some (s, r) =>
        if r.exprtime ≠ 0 ∧ r.exprtime ≤ sysnow then
          load_dequeue_loop sysnow fuel (bp_relinquish data1 s)
            { stats with expired := stats.expired + 1 } status flags
        else (data1, stats, status, flags, some (s, r))
      | none =>
        if dstat = BP_TIMEOUT then (data1, stats, BP_TIMEOUT, flags, none)
        else (data1, stats, BP_FAILEDSTORE, flags ||| BP_FLAG_STOREFAILURE, none)

/-- Transmit stage of `bplib_load` (src/src/bplib.c lines 1549-1610).  An
undersized caller buffer relinquishes the selection and counts `lost`
(`BP_BUNDLETOOLARGE`); a custody bundle gets a fresh custody id and
active-table slot when `newcid` holds (patching the cid SDNV in the
stored header) and its retransmit time updated; a custody-free bundle is
relinquished after the copy out.  `bufSize = none` models a null caller
buffer, for which the C code allocates (allocation failure not modelled). -/
def load_transmit (A : Nat) (bufSize : Option Nat) (sysnow : Nat) (fromDacs : Bool)
    (tbl : ActiveTable) (data dacs : BpStore StoredBundle) (stats : BpStats)
    (ds : Option (Nat × StoredBundle)) (newcid : Bool) (ati : Nat)
    (status : Int) (flags : Nat) :
    ActiveTable × BpStore StoredBundle × BpStore StoredBundle × BpStats × Int ×
      Nat × Option StoredBundle :=
  match ds with
  | none => (tbl, data, dacs, stats, status, flags, none)
  | some (s, r) =>
    let bigEnough := match bufSize with
      | none => true
      | some sz => r.bundlesize ≤ sz
    if bigEnough then
      if r.cteboffset ≠ 0 then
        if newcid then
          let ati1 := tbl.current_cid % A
          let r1 := { r with cidValue := tbl.current_cid }
          let tbl1 := { tbl with
            sid := tbl.sid.set ati1 (some s),
            retx := tbl.retx.set ati1 sysnow,
            current_cid := tbl.current_cid + 1 }
          (tbl1, storeUpdate data s r1, dacs,
            { stats with transmitted := stats.transmitted + 1 }, BP_SUCCESS, flags, some r1)
        else
          let tbl1 := { tbl with retx := tbl.retx.set ati sysnow }
          (tbl1, data, dacs,
            { stats with transmitted := stats.transmitted + 1 }, BP_SUCCESS, flags, some r)
      else
        if fromDacs then
          (tbl, data, bp_relinquish dacs s,
            { stats with transmitted := stats.transmitted + 1 }, BP_SUCCESS, flags, some r)
        else
          (tbl, bp_relinquish data s, dacs,
            { stats with transmitted := stats.transmitted + 1 }, BP_SUCCESS, flags, some r)
    else
      let stats1 := { stats with lost := stats.lost + 1 }
      if fromDacs then (tbl, data, bp_relinquish dacs s, stats1, BP_BUNDLETOOLARGE, flags, none)
      else (tbl, bp_relinquish data s, dacs, stats1, BP_BUNDLETOOLARGE, flags, none)

/-- DACS rate check of `bplib_load` (src/src/bplib.c lines 1366-1384): a
non-empty accumulator whose last DACS is at least `dacs_rate` seconds old
is flushed to the DACS store and restamped. -/
def dacs_rate_check (rate maxFills sysnow : Nat) :
    List BpDacsBundle → BpStore StoredBundle → Nat →
    List BpDacsBundle × BpStore StoredBundle × Nat
  | [], store, flags => ([], store, flags)
  | d :: t, store, flags =>
    if 0 < rate ∧ d.last_dacs + rate ≤ sysnow ∧ ¬d.tree.nodes.isEmpty then
      match store_dacs_bundles maxFills d store sysnow flags with
      | (_, d1, store1, flags1) =>
        let r := dacs_rate_check rate maxFills sysnow t store1 flags1
        ({ d1 with last_dacs := sysnow } :: r.fst, r.snd.fst, r.snd.snd)
    else
      let r := dacs_rate_check rate maxFills sysnow t store flags
      (d :: r.fst, r.snd.fst, r.snd.snd)

/-- Result of a `bplib_load` call: the status, updated channel and stores,
the bundle (if any) copied out to the caller, and the side-band flags. -/
structure LoadResult where
  status : Int
  ch : BpChannel
  st : Stores
  emitted : Option StoredBundle
  flags : Nat
deriving Repr, DecidableEq

/-- `bplib_load` (src/src/bplib.c lines 1343-1614): flushes stale DACS
accumulators, prefers a pending DACS bundle from the DACS store
(`BP_FLAG_ROUTENEEDED`), otherwise walks the active table for expired and
timed-out bundles, then falls back to a fresh dequeue from the data
store, and finally transmits the selection, assigning a custody id and
active-table slot to custody bundles.  `stats.active` is recomputed as
`current_cid - oldest_cid` at the end. -/
def bplib_load (ch0 : BpChannel) (st0 : Stores) (bufSize : Option Nat) (sysnow : Nat) :
    LoadResult :=
  let rc := dacs_rate_check ch0.dacs_rate ch0.attributes_max_fills_per_dacs sysnow
    ch0.dacs_bundle st0.dacs 0
  let ch1 := { ch0 with dacs_bundle := rc.fst }
  let flags1 := rc.snd.snd
  let dq := bp_dequeue rc.snd.fst
  let fromDacs := dq.fst = BP_SUCCESS
  let ds0 := if fromDacs then dq.snd.fst else none
  let dacs2 := dq.snd.snd
  let flags2 := if fromDacs then flags1 ||| BP_FLAG_ROUTENEEDED else flags1
  let A := ch1.attributes_active_table_size
  let fuel := 2 * (ch1.active_table.current_cid - ch1.active_table.oldest_cid) + 1
  let ls0 : LoopState :=
    { tbl := ch1.active_table, data := st0.data, stats := ch1.stats, ds := ds0,
      ati := 0, newcid := true, status := BP_SUCCESS, flags := flags2, broke := false }
  let ls1 := load_active_loop A ch1.timeout ch1.cid_reuse ch1.wrap_response sysnow fuel ls0
  let dqr := match ls1.ds with
    | some x => (ls1.data, ls1.stats, ls1.status, ls1.flags, some x)
    | none => load_dequeue_loop sysnow (ls1.data.queue.length + 1) ls1.data ls1.stats
        ls1.status ls1.flags
  match dqr with
  | (data2, stats2, status2, flags3, ds2) =>
    match load_transmit A bufSize sysnow fromDacs ls1.tbl data2 dacs2 stats2 ds2
        ls1.newcid ls1.ati status2 flags3 with
    | (tbl3, data3, dacs3, stats3, status3, flags4, em) =>
      let stats4 := { stats3 with active := tbl3.current_cid - tbl3.oldest_cid }
      { status := status3,
        ch := { ch1 with active_table := tbl3, stats := stats4 },
        st := { st0 with data := data3, dacs := dacs3 },
        emitted := em, flags := flags4 }

/-- `bplib_accept` (src/src/bplib.c lines 1902-1966): dequeues the next
stored payload; a sufficient (or null, i.e. allocated) caller buffer
receives the payload bytes and counts `delivered`; an undersized buffer
yields `BP_PAYLOADTOOLARGE` and counts `lost`; in both cases the stored
record is relinquished.  `bufSize = none` models a null `*payload`
pointer (allocation failure not modelled). -/
def bplib_accept (ch : BpChannel) (st : Stores) (bufSize : Option Nat) :
    Int × BpChannel × Stores × Option StoredPayload :=
  match bp_dequeue st.payload with
  | (dstat, got, pay1) =>
    match got with
    | none => (dstat, ch, { st with payload := pay1 }, none)
    | some (s, p) =>
      let ok := match bufSize with
        | none => true
        | some sz => p.payloadsize ≤ sz
      if ok then
        (BP_SUCCESS,
          { ch with stats := { ch.stats with delivered := ch.stats.delivered + 1 } },
          { st with payload := bp_relinquish pay1 s }, some p)
      else
        (BP_PAYLOADTOOLARGE,
          { ch with stats := { ch.stats with lost := ch.stats.lost + 1 } },
          { st with payload := bp_relinquish pay1 s }, none)

/-! The v7 custody cache, translated from `v7_cache_custody.c` and
`v7_cache.c` (src/unnamed/part_002).  The memory pool, the red-black
index trees and the CRC are collaborators; entries are held in an
association list keyed by a stable id, and each index tree is an
association list from key to the bucket's entry-id list (the "subq"
collision lists of `bplib_cache_add_to_subindex`). -/

/-- IPN address pair `bp_ipn_addr_t`. -/
structure IpnAddr where
  node : Nat
  service : Nat
deriving Repr, DecidableEq

def BPLIB_STORE_FLAG_ACTIVITY : Nat := 1

def BPLIB_STORE_FLAG_LOCAL_CUSTODY : Nat := 2

def BPLIB_STORE_FLAG_ACTION_TIME_WAIT : Nat := 4

def BPLIB_STORE_FLAG_LOCALLY_QUEUED : Nat := 8

/-- Modelled from the spec: `BP_DACS_MAX_SEQ_PER_PAYLOAD` (the v7 headers
are outside the provided sources); any positive capacity preserves the
append/finalize logic. -/
def BP_DACS_MAX_SEQ_PER_PAYLOAD : Nat := 16

/-- Modelled from the spec: `BP_CACHE_DACS_OPEN_TIME` (v7 header constant),
the interval a DACS bundle stays open for appending. -/
def BP_CACHE_DACS_OPEN_TIME : Nat := 10000

/-- Cache entry states (`bplib_cache_entry_state_t`). -/
inductive CacheEntryState where
  | idle
  | generate_dacs
  | queued
  | ack_wait
  | expired_state
deriving Repr, DecidableEq

/-- Pending-DACS extension data (`bplib_cache_dacs_pending_t`): previous
custodian, and the `custody_accept_payload` holding the flow source EID
and the acknowledged sequence numbers. -/
structure DacsPending where
  prev_custodian_id : IpnAddr
  flow_source_eid : IpnAddr
  sequence_nums : List Nat
deriving Repr, DecidableEq

/-- Logical content of a refcounted bundle block as the cache reads it:
source EID and creation sequence (the duplicate-detection key),
destination, the custody tracking block (present flag and its current
custodian), and the delivery policy bit the ingress path tests. -/
structure CacheBundle where
  sourceEid : IpnAddr
  sequence_num : Nat
  dest_node : Nat
  has_custody_block : Bool
  current_custodian : IpnAddr
  delivery_policy_custody_tracking : Bool
deriving Repr, DecidableEq

/-- Cache entry `bplib_cache_entry_t`: state, flag bits, the referenced
bundle (for stored bundles) or the pending-DACS data (for DACS under
construction), and the action time. -/
structure CacheEntry where
  estate : CacheEntryState
  flags : Nat
  refBundle : Option CacheBundle
  dacs : Option DacsPending
  action_time : Nat
deriving Repr, DecidableEq

/-- Cache state `bplib_cache_state_t`: the entry pool and the hash and
destination subindices (bucket lists per key), the pending list, and the
generated-DACS sequence counter. -/
structure CacheState where
  self_addr : IpnAddr
  entries : List (Nat × CacheEntry)
  hash_index : List (Nat × List Nat)
  dest_eid_index : List (Nat × List Nat)
  pending_list : List Nat
  nextId : Nat
  generated_dacs_seq : Nat
deriving Repr, DecidableEq

/-- Update of one entry in an association list. -/
def assocUpdate {β : Type} : List (Nat × β) → Nat → (β → β) → List (Nat × β)
  | [], _, _ => []
  | kv :: t, k, f => (if kv.fst = k then (k, f kv.snd) else kv) :: assocUpdate t k f

/-- Clears the bits of `c` from `f`. -/
def clearFlags (f c : Nat) : Nat := f - (f &&& c)

/-- Modelled from the spec: the CRC32-Castagnoli hash over salted tuples
(the CRC implementation is outside the provided sources).  The two salts
`BPLIB_CACHE_CUSTODY_HASH_SALT_BUNDLE` and `_DACS` only keep the two key
kinds apart; since collisions are resolved by an exact-match scan of the
bucket list, any concrete keyed function preserves the lookup logic. -/
def custodyHashBundle (flow : IpnAddr) (seq : Nat) : Nat :=
  ((flow.node * UINT32_MOD + flow.service) * UINT32_MOD + seq) * 2

/-- Hash for DACS lookup: flow and previous custodian, under the DACS salt. -/
def custodyHashDacs (flow : IpnAddr) (custodian : IpnAddr) : Nat :=
  (((flow.node * UINT32_MOD + flow.service) * UINT32_MOD + custodian.node) * UINT32_MOD
    + custodian.service) * 2 + 1

/-- `bplib_cache_add_to_subindex` (v7_cache.c): appends the entry to the
bucket of `key`, creating the bucket on first occurrence. -/
def bplib_cache_add_to_subindex (idx : List (Nat × List Nat)) (key id : Nat) :
    List (Nat × List Nat) :=
  match storeLookup idx key with
  | some _ => idx.map (fun kv => if kv.fst = key then (key, kv.snd ++ [id]) else kv)
  | none => idx ++ [(key, [id])]

/-- `bplib_cache_remove_from_subindex` (v7_cache.c): removes the entry's
link; a bucket left empty is removed from the index tree. -/
def bplib_cache_remove_from_subindex (idx : List (Nat × List Nat)) (id : Nat) :
    List (Nat × List Nat) :=
  (idx.map (fun kv => (kv.fst, kv.snd.filter (fun x => x ≠ id)))).filter
    (fun kv => ¬kv.snd.isEmpty)

/-- `bplib_cache_entry_make_pending` (v7_cache.c): applies the set/clear
flag masks and re-files the entry on the pending list. -/
def bplib_cache_entry_make_pending (st : CacheState) (id : Nat) (setF clearF : Nat) :
    CacheState :=
  { st with
    entries := assocUpdate st.entries id
      (fun e => { e with flags := clearFlags (e.flags ||| setF) clearF }),
    pending_list := st.pending_list.filter (fun x => x ≠ id) ++ [id] }

/-- Bucket scan of `bplib_cache_custody_find_bundle_match` (matching on
creation sequence then source EID). -/
def findBundleMatch (entries : List (Nat × CacheEntry)) (flow : IpnAddr) (seq : Nat) :
    List Nat → Option Nat
  | [] => none
  | id :: t =>
    match storeLookup entries id with
    | some e =>
      match e.refBundle with
      | some rb =>
        if rb.sequence_num = seq ∧ rb.sourceEid = flow then some id
        else findBundleMatch entries flow seq t
      | none => findBundleMatch entries flow seq t
    | none => findBundleMatch entries flow seq t

/-- `bplib_cache_custody_find_existing_bundle` (v7_cache_custody.c lines
444-481): hashes (flow, sequence) under the bundle salt and scans the
bucket; a match additionally sets `BPLIB_STORE_FLAG_ACTIVITY` on the
matched entry (done inside `find_bundle_match`). -/
def bplib_cache_custody_find_existing_bundle (st : CacheState) (flow : IpnAddr)
    (seq : Nat) : Option Nat × CacheState :=
  match storeLookup st.hash_index (custodyHashBundle flow seq) with
  | none => (none, st)
  | some ids =>
    match findBundleMatch st.entries flow seq ids with
    | none => (none, st)
    | some id =>
      (some id,
        { st with
          entries := assocUpdate st.entries id
            (fun e => { e with flags := e.flags ||| BPLIB_STORE_FLAG_ACTIVITY }) })

/-- Bucket scan of `bplib_cache_custody_find_dacs_match` (state must be
`generate_dacs`, then custodian and flow must match). -/
def findDacsMatch (entries : List (Nat × CacheEntry)) (flow custodian : IpnAddr) :
    List Nat → Option Nat
  | [] => none
  | id :: t =>
    match storeLookup entries id with
    | some e =>
      match e.dacs with
      | some dp =>
        if e.estate = CacheEntryState.generate_dacs ∧ dp.prev_custodian_id = custodian ∧
            dp.flow_source_eid = flow then some id
        else findDacsMatch entries flow custodian t
      | none => findDacsMatch entries flow custodian t
    | none => findDacsMatch entries flow custodian t

/-- `bplib_cache_custody_find_pending_dacs` (v7_cache_custody.c lines
85-121): hashes (flow, custodian) under the DACS salt and scans. -/
def bplib_cache_custody_find_pending_dacs (st : CacheState) (flow custodian : IpnAddr) :
    Option Nat :=
  match storeLookup st.hash_index (custodyHashDacs flow custodian) with
  | none => none
  | some ids => findDacsMatch st.entries flow custodian ids

/-- `bplib_cache_custody_open_dacs` together with `create_dacs`
(v7_cache_custody.c lines 150-298): allocates a `generate_dacs` cache
entry whose payload aggregates acknowledgments toward `custodian` for
flow `flow`, indexes it under the DACS hash, and files it pending with
`ACTIVITY | LOCAL_CUSTODY | ACTION_TIME_WAIT` set. -/
def bplib_cache_custody_open_dacs (st : CacheState) (flow custodian : IpnAddr)
    (now : Nat) : CacheState × Nat :=
  let id := st.nextId
  let e : CacheEntry :=
    { estate := CacheEntryState.generate_dacs, flags := 0,
      refBundle := none,
      dacs := some { prev_custodian_id := custodian, flow_source_eid := flow,
                     sequence_nums := [] },
      action_time := now + BP_CACHE_DACS_OPEN_TIME }
  let st1 := { st with
    entries := st.entries ++ [(id, e)],
    nextId := id + 1,
    generated_dacs_seq := st.generated_dacs_seq + 1,
    hash_index := bplib_cache_add_to_subindex st.hash_index
      (custodyHashDacs flow custodian) id }
  (bplib_cache_entry_make_pending st1 id
    (BPLIB_STORE_FLAG_ACTIVITY ||| BPLIB_STORE_FLAG_LOCAL_CUSTODY |||
      BPLIB_STORE_FLAG_ACTION_TIME_WAIT) 0, id)

/-- `bplib_cache_custody_finalize_dacs` (v7_cache_custody.c lines
509-514): removes the entry from the hash index so no further appends
find it. -/
def bplib_cache_custody_finalize_dacs (st : CacheState) (id : Nat) : CacheState :=
  { st with hash_index := bplib_cache_remove_from_subindex st.hash_index id }

/-- `bplib_cache_custody_append_dacs` (v7_cache_custody.c lines 300-331):
appends the sequence number unless already present and the payload has
room; a payload filled to `BP_DACS_MAX_SEQ_PER_PAYLOAD` is finalized and
re-filed pending with `ACTION_TIME_WAIT` cleared. -/
def bplib_cache_custody_append_dacs (st : CacheState) (id : Nat) (seq : Nat) :
    CacheState :=
  match storeLookup st.entries id with
  | none => st
  | some e =>
    match e.dacs with
    | none => st
    | some dp =>
      let dp1 := if ¬dp.sequence_nums.contains seq ∧
          dp.sequence_nums.length < BP_DACS_MAX_SEQ_PER_PAYLOAD then
          { dp with sequence_nums := dp.sequence_nums ++ [seq] }
        else dp
      let st1 := { st with
        entries := assocUpdate st.entries id (fun e1 => { e1 with dacs := some dp1 }) }
      if dp1.sequence_nums.length = BP_DACS_MAX_SEQ_PER_PAYLOAD then
        bplib_cache_entry_make_pending (bplib_cache_custody_finalize_dacs st1 id) id 0
          BPLIB_STORE_FLAG_ACTION_TIME_WAIT
      else st1

/-- `bplib_cache_custody_ack_tracking_block` (v7_cache_custody.c lines
333-358): aims a DACS at the custodian named by the bundle's custody
tracking block (the zero address when the block is absent, matching the
`memset` of `dacs_info`), opening a fresh accumulator when none is
pending, then appends the bundle's creation sequence. -/
def bplib_cache_custody_ack_tracking_block (st : CacheState) (hasCblk : Bool)
    (custodian : IpnAddr) (flow : IpnAddr) (seq : Nat) (now : Nat) : CacheState :=
  let c := if hasCblk then custodian else { node := 0, service := 0 }
  match bplib_cache_custody_find_pending_dacs st flow c with
  | some id => bplib_cache_custody_append_dacs st id seq
  | none =>
    match bplib_cache_custody_open_dacs st flow c now with
    | (st1, id) => bplib_cache_custody_append_dacs st1 id seq

/-- Helper updating the bundle data referenced by an entry (the C code
mutates the refcounted block in place). -/
def updateEntryBundle (st : CacheState) (id : Nat) (f : CacheBundle → CacheBundle) :
    CacheState :=
  { st with
    entries := assocUpdate st.entries id
      (fun e => { e with refBundle := e.refBundle.map f }) }

/-- `bplib_cache_custody_process_bundle` with `insert_tracking_block` and
`update_tracking_block` (v7_cache_custody.c lines 29-47 and 360-406):
with a custody block present, acknowledge toward the previous custodian
and, for locally destined bundles, downgrade the delivery policy to
local-ack; without one, insert a tracking block unless the bundle is
locally destined; any present (or inserted) tracking block is then
updated to name this service as current custodian. -/
def bplib_cache_custody_process_bundle (st : CacheState) (id : Nat) (b : CacheBundle)
    (now : Nat) : CacheState :=
  let is_local := b.dest_node = st.self_addr.node
  if b.has_custody_block then
    let st1 := bplib_cache_custody_ack_tracking_block st true b.current_custodian
      b.sourceEid b.sequence_num now
    let st2 := if is_local then
        updateEntryBundle st1 id (fun rb => { rb with delivery_policy_custody_tracking := false })
      else st1
    updateEntryBundle st2 id (fun rb => { rb with current_custodian := st.self_addr })
  else if ¬is_local then
    updateEntryBundle st id
      (fun rb => { rb with has_custody_block := true, current_custodian := st.self_addr })
  else st

/-- Modelled from the spec: `bplib_cache_fsm_execute` lives in
`v7_cache_fsm.c`, which is not among the provided sources.  Per spec
section 4.2.2 the FSM re-files the entry by state; the properties under
study (entry allocation, indexing, the duplicate path) do not depend on
that re-filing, so it is modelled as the identity on the cache state. -/
def bplib_cache_fsm_execute (st : CacheState) (id : Nat) : CacheState :=
  let _ := id
  st

/-- `bplib_cache_custody_store_bundle` (v7_cache_custody.c lines 539-610):
a bundle matching an existing entry under the bundle hash is a duplicate —
the custody acknowledgment is re-sent toward the previous custodian and
nothing is stored; otherwise a fresh entry takes a reference on the
bundle, is indexed by destination node and by bundle hash, gains
`LOCAL_CUSTODY | ACTIVITY`, runs the custody handshake when the delivery
policy is custody tracking, and is handed to the FSM. -/
def bplib_cache_custody_store_bundle (st : CacheState) (b : CacheBundle) (now : Nat) :
    CacheState :=
  match bplib_cache_custody_find_existing_bundle st b.sourceEid b.sequence_num with
  | (some _, st1) =>
    bplib_cache_custody_ack_tracking_block st1 b.has_custody_block b.current_custodian
      b.sourceEid b.sequence_num now
  | (none, st1) =>
    let id := st1.nextId
    let e : CacheEntry :=
      { estate := CacheEntryState.idle,
        flags := BPLIB_STORE_FLAG_LOCAL_CUSTODY ||| BPLIB_STORE_FLAG_ACTIVITY,
        refBundle := some b, dacs := none, action_time := 0 }
    let st2 := { st1 with
      entries := st1.entries ++ [(id, e)],
      nextId := id + 1,
      dest_eid_index := bplib_cache_add_to_subindex st1.dest_eid_index b.dest_node id,
      hash_index := bplib_cache_add_to_subindex st1.hash_index
        (custodyHashBundle b.sourceEid b.sequence_num) id }
    let st3 := if b.delivery_policy_custody_tracking then
        bplib_cache_custody_process_bundle st2 id b now
      else st2
    bplib_cache_fsm_execute st3 id

/-! EID rendering and parsing (`bplib_ipn2eid` / `bplib_eid2ipn`,
src/src/bplib.c lines 2007-2110).  C strings are modelled as lists of
byte values; `bplib_os_format` with `"ipn:%lu.%lu"` and libc `strtoul`
are collaborators modelled below. -/

/-- Modelled from `bplib.h` via the spec (the header is outside the
provided sources): the EID string buffer bound. -/
def BP_MAX_EID_STRING : Nat := 128

def ULONG_MAX : Nat := 18446744073709551615

/-- Decimal digits (byte values, most significant first) of a natural
number, as `%lu` renders it. -/
def natToDigits (n : Nat) : List Nat :=
  if h : n < 10 then [48 + n]
  else natToDigits (n / 10) ++ [48 + n % 10]
termination_by n
decreasing_by exact Nat.div_lt_self (Nat.lt_of_lt_of_le (by decide) (Nat.le_of_not_lt h)) (by decide)

/-- Value of a big-endian digit-byte list. -/
def digitsVal (l : List Nat) : Nat := l.foldl (fun a c => a * 10 + (c - 48)) 0

/-- Digit-run consumption of `strtoul`: accumulated value and the unparsed
tail. -/
def strtoulDigits : List Nat → Nat → Nat × List Nat
  | [], acc => (acc, [])
  | c :: t, acc =>
    if 48 ≤ c ∧ c ≤ 57 then strtoulDigits t (acc * 10 + (c - 48))
    else (acc, c :: t)

/-- Modelled from libc: `strtoul(str, &endptr, 10)` on the numeral forms
arising here (no leading whitespace or sign).  Returns the consumed digit
count (`endptr - str`), the value clamped to `ULONG_MAX`, and the
`ERANGE` flag. -/
def strtoul10 (l : List Nat) : Nat × Nat × Bool :=
  match strtoulDigits l 0 with
  | (v, rest) =>
    let consumed := l.length - rest.length
    if ULONG_MAX < v then (consumed, ULONG_MAX, true) else (consumed, v, false)

/-- Split at the first `'.'` (byte 46), as `strchr` finds it; `none` when
no dot occurs. -/
def splitAtDot : List Nat → Option (List Nat × List Nat)
  | [] => none
  | c :: t =>
    if c = 46 then some ([], t)
    else
      match splitAtDot t with
      | some (a, b2) => some (c :: a, b2)
      | none => none

/-- The node/service part of `bplib_eid2ipn` (src/src/bplib.c lines
2030-2076): splits the text after the scheme at the first dot and parses
both segments with `strtoul` (rejecting an empty digit run or an `ERANGE`
overflow), truncating the results to `uint32`. -/
def eid2ipn_segments (rest : List Nat) : Option (Nat × Nat) :=
  match splitAtDot rest with
  | none => none
  | some (nodeStr, serviceStr) =>
    match strtoul10 nodeStr with
    | (ncons, nval, nrange) =>
      if ncons = 0 ∨ ((nval = ULONG_MAX ∨ nval = 0) ∧ nrange) then none
      else
        match strtoul10 serviceStr with
        | (scons, sval, srange) =>
          if scons = 0 ∨ ((sval = ULONG_MAX ∨ sval = 0) ∧ srange) then none
          else some (nval % UINT32_MOD, sval % UINT32_MOD)

/-- `bplib_eid2ipn` (src/src/bplib.c lines 2007-2077): rejects a short or
over-long string and a non-`ipn:` scheme, then parses the node and
service segments. -/
def bplib_eid2ipn (eid : List Nat) : Option (Nat × Nat) :=
  if eid.length < 7 then none
  else if BP_MAX_EID_STRING < eid.length then none
  else
    match eid with
    | i :: p :: n :: colon :: rest =>
      if i = 105 ∧ p = 112 ∧ n = 110 ∧ colon = 58 then eid2ipn_segments rest
      else none
    | _ => none

/-- `bplib_ipn2eid` (src/src/bplib.c lines 2088-2110): rejects a short or
over-long destination buffer, then renders `ipn:<node>.<service>`;
`bplib_os_format` truncates to the buffer (keeping the terminator). -/
def bplib_ipn2eid (len : Nat) (node service : Nat) : Option (List Nat) :=
  if len < 7 then none
  else if BP_MAX_EID_STRING < len then none
  else
    let full := [105, 112, 110, 58] ++ natToDigits node ++ [46] ++ natToDigits service
    some (full.take (len - 1))

/-- `getset_opt` case `BP_OPT_ALLOWFRAG_D` on set (src/src/bplib.c lines
849-865): the channel ties `is_frag` to `allow_frag` at set time. -/
def getset_opt_allowfrag (pri : BpBlkPri) (enable : Bool) : BpBlkPri :=
  { pri with allow_frag := enable, is_frag := enable }

/-- Statement vocabulary: `fragTiles paysize offset recs` holds when the
stored fragments `recs` carry `fragoffset` fields that tile
`[offset, paysize)` contiguously and each carries the total payload length
in `paylen`. -/
def fragTiles (paysize : Nat) : Nat → List StoredBundle → Bool
  | offset, [] => offset == paysize
  | offset, r :: t =>
    (r.fragoffset == offset) && (r.paylen == paysize) && (r.fragsize != 0) &&
      Nat.ble (offset + r.fragsize) paysize && fragTiles paysize (offset + r.fragsize) t

/-- Statement vocabulary: the active-table invariant of spec section 8 —
`oldest_cid ≤ current_cid`, a window of at most `A`, a ring of length `A`,
and every occupied slot `i` backed by some in-window custody id congruent
to `i` (spec invariant I2). -/
def TableInv (A : Nat) (tbl : ActiveTable) : Prop :=
  tbl.oldest_cid ≤ tbl.current_cid ∧
  tbl.current_cid - tbl.oldest_cid ≤ A ∧
  tbl.sid.length = A ∧
  ∀ i < A, (tbl.sid.getD i none).isSome = true →
    ∃ cid < tbl.current_cid, tbl.oldest_cid ≤ cid ∧ cid % A = i

/-! Concrete fixtures used by the closed evaluations and witnesses. -/

/-- Fixture: all-zero statistics. -/
def zeroStats : BpStats :=
  { generated := 0, transmitted := 0, retransmitted := 0, received := 0, delivered := 0,
    acknowledged := 0, expired := 0, lost := 0, active := 0 }

/-- Fixture: an originating primary block template requesting custody. -/
def fixPri : BpBlkPri :=
  { dstnode := 2, dstserv := 1, srcnode := 1, srcserv := 1, rptnode := 0, rptserv := 0,
    cstnode := 1, cstserv := 1, createsec := 0, createseq := 0, lifetime := 0,
    dictlen := 0, fragoffset := 0, paylen := 0, is_admin_rec := false,
    request_custody := true, allow_frag := false, is_frag := false,
    integrity_check := false }

/-- Fixture: a channel with a one-slot active table, `timeout = 0`
(retransmission disabled) and `wrap_response = BP_WRAP_BLOCK`. -/
def fixChBlock : BpChannel :=
  { attributes_active_table_size := 1, attributes_max_concurrent_dacs := 1,
    attributes_max_fills_per_dacs := 1, attributes_max_tree_size := 4,
    local_node := 1, local_service := 1, data_pri := fixPri, data_maxlength := 100,
    data_originate := true, data_cteb_cid := 0, dacs_bundle := [],
    active_table := { sid := [none], retx := [0], oldest_cid := 0, current_cid := 0 },
    stats := zeroStats, timeout := 0, proc_admin_only := false,
    wrap_response := BP_WRAP_BLOCK, cid_reuse := false, dacs_rate := 5 }

/-- Fixture: three empty storage handles of capacity 10. -/
def fixStores : Stores :=
  { data := { queue := [], live := [], nextSid := 0, maxRecs := 10 },
    payload := { queue := [], live := [], nextSid := 0, maxRecs := 10 },
    dacs := { queue := [], live := [], nextSid := 0, maxRecs := 10 } }

/-- Wrap scenario, step 1: store a first custody bundle. -/
def wrapStep1 : Int × BpChannel × Stores := bplib_store fixChBlock fixStores 4 0

/-- Wrap scenario, step 2: load it, occupying the single active-table slot. -/
def wrapStep2 : LoadResult := bplib_load wrapStep1.snd.fst wrapStep1.snd.snd none 0

/-- Wrap scenario, step 3: store a second custody bundle. -/
def wrapStep3 : Int × BpChannel × Stores := bplib_store wrapStep2.ch wrapStep2.st 4 0

/-- Wrap scenario, step 4: load with the table full and the occupant not
yet due; `BP_WRAP_BLOCK` records `BP_OVERFLOW`, yet the call then
dequeues the fresh bundle and inserts it over the occupied slot. -/
def wrapStep4 : LoadResult := bplib_load wrapStep3.snd.fst wrapStep3.snd.snd none 0

/-- Fixture: a received data bundle destined to this node, custody
requested, carrying a CTEB from custodian `3.4` with custody id 7. -/
def fixRecvBundle : ParsedBundle :=
  { pri := { fixPri with dstnode := 1, createsec := 100, lifetime := 10 },
    cteb_present := true, cteb := { cid := 7, cstnode := 3, cstserv := 4 },
    bib_present := false, integrity_ok := true, paysize := 5, rec_type := 0,
    acs_cids := [] }

/-- Fixture family: a received data bundle for the local endpoint `1.1`
with custody requested, parameterized by the previous custodian `cn.cs`,
its custody id and the payload size. -/
def c3Bundle (cn cs cid paysize : Nat) : ParsedBundle :=
  { pri := { fixPri with dstnode := 1 },
    cteb_present := true, cteb := { cid := cid, cstnode := cn, cstserv := cs },
    bib_present := false, integrity_ok := true, paysize := paysize, rec_type := 0,
    acs_cids := [] }

/-- Fixture: a channel whose single DACS accumulator slot is already taken
by custodian `8.7`. -/
def fixChDacsFull : BpChannel :=
  { fixChBlock with dacs_bundle :=
      [{ cstnode := 8, cstserv := 7,
         tree := { max_size := 4, nodes := [3] }, delivered := true, last_dacs := 0,
         dstnode := 8, dstserv := 7, createseq := 0 }] }

/-- Fixture: a v7 cache bundle from flow `5.6` with sequence number 42,
carrying a custody block naming previous custodian `3.1`. -/
def c9Bundle : CacheBundle :=
  { sourceEid := { node := 5, service := 6 }, sequence_num := 42, dest_node := 9,
    has_custody_block := true, current_custodian := { node := 3, service := 1 },
    delivery_policy_custody_tracking := true }

/-- Fixture: an empty v7 custody cache at node `2.1`. -/
def c9State0 : CacheState :=
  { self_addr := { node := 2, service := 1 }, entries := [], hash_index := [],
    dest_eid_index := [], pending_list := [], nextId := 0, generated_dacs_seq := 0 }

/-- Fixture: the cache after storing `c9Bundle` once: one bundle entry
(id 0) and one open DACS accumulator entry (id 1) holding sequence 42. -/
def c9State1 : CacheState := bplib_cache_custody_store_bundle c9State0 c9Bundle 1000

/-- Fixture: `c9State1` after the duplicate lookup has re-found the stored
bundle (which stamps the ACTIVITY flag on entry 0). -/
def c9State2 : CacheState :=
  (bplib_cache_custody_find_existing_bundle c9State1 c9Bundle.sourceEid
    c9Bundle.sequence_num).snd

/-- Fixture: the pending DACS payload inside `c9State1` entry 1. -/
def c9Dp : DacsPending :=
  { prev_custodian_id := { node := 3, service := 1 },
    flow_source_eid := { node := 5, service := 6 }, sequence_nums := [42] }

/-- Fixture: the open DACS cache entry (id 1) of `c9State1`. -/
def c9Entry : CacheEntry :=
  { estate := CacheEntryState.generate_dacs, flags := 7, refBundle := none,
    dacs := some c9Dp, action_time := 11000 }

/-- Fixture: a stored custody bundle expiring at time 50. -/
def c2Rec : StoredBundle :=
  { exprtime := 50, cteboffset := 1, cidValue := 0, bundlesize := 10, fragoffset := 0,
    paylen := 4, fragsize := 4, createsec := 0, createseq := 0 }

/-- Fixture: a two-slot active table whose slot 0 holds storage id 5 as
custody id 0, with one custody id in flight. -/
def c2Table : ActiveTable :=
  { sid := [some 5, none], retx := [0, 0], oldest_cid := 0, current_cid := 1 }

/-- Fixture: a channel with a two-slot active table holding `c2Table`. -/
def c2Ch : BpChannel :=
  { fixChBlock with
    attributes_active_table_size := 2,
    active_table := c2Table }

/-- Fixture: stores where the data handle holds the expired record 5 as a
live (already dequeued) bundle. -/
def c2St : Stores :=
  { fixStores with
    data := { queue := [], live := [(5, c2Rec)], nextSid := 6, maxRecs := 10 } }

/-!  Theorems.  Generic helper lemmas come first, then one theorem per
claim (with its witness or counterexample where required). -/

theorem storeLookup_filter_self {α : Type} (l : List (Nat × α)) (s : Nat) :
    storeLookup (l.filter fun kv => kv.fst ≠ s) s = none := by
  induction l with
  | nil => rfl
  | cons kv t ih =>
    rw [List.filter_cons]
    by_cases h : kv.fst = s
    · simpa [h] using ih
    · simpa [h, storeLookup] using ih

/-- C1: the spec claims `current_cid − oldest_cid ≤ active_table_size`
after every sequence of store/load/process operations.  The concrete
four-step run `wrapStep1 … wrapStep4` (table size 1, `wrap_response =
BP_WRAP_BLOCK`, retransmission timeout disabled) refutes this on the
code: the fourth call records `BP_OVERFLOW` on the wrap check but then
falls through to the fresh-dequeue loop, stores the new custody bundle
over the occupied slot and bumps `current_cid`, leaving a window of 2 in
a table of size 1 (and overwriting the occupant's storage id).  The C
code's own comment (lines 1448-1456) states the design requires at least
one open slot before a dequeue, so this is a defect of the code, not of
the claim. -/
theorem c1_active_window_overflow_on_wrap_block :
    wrapStep4.ch.attributes_active_table_size = 1 ∧
    wrapStep4.ch.active_table.oldest_cid = 0 ∧
    wrapStep4.ch.active_table.current_cid = 2 ∧
    wrapStep4.ch.stats.active = 2 ∧
    wrapStep4.status = BP_SUCCESS ∧
    wrapStep4.emitted.isSome = true ∧
    wrapStep4.flags &&& BP_FLAG_ACTIVETABLEWRAP ≠ 0 := by
  decide

/-- C7: a bundle whose lifetime has elapsed (`lifetime ≠ 0` and
`createsec + lifetime ≤ sysnow`, without uint32 overflow) is rejected by
`bplib_process` with `BP_EXPIRED`; the expired statistic is incremented
(after the unconditional reception count) and no store is touched. -/
theorem c7_process_expired (ch : BpChannel) (st : Stores) (b : ParsedBundle)
    (sysnow : Nat)
    (hd : b.pri.dictlen = 0)
    (hl : b.pri.lifetime ≠ 0)
    (hnow : b.pri.createsec + b.pri.lifetime ≤ sysnow)
    (hnw : b.pri.createsec + b.pri.lifetime < UINT32_MOD) :
    bplib_process ch st b sysnow =
      (BP_EXPIRED,
        { ch with stats := { ch.stats with
            received := ch.stats.received + 1,
            expired := ch.stats.expired + 1 } },
        st, 0) := by
  have h2 : (b.pri.lifetime + b.pri.createsec) % UINT32_MOD ≤ sysnow := by
    rw [Nat.mod_eq_of_lt (by omega)]
    omega
  simp [bplib_process, hd, hl, h2]

/-- C7 witness: the fixture bundle (`createsec = 100`, `lifetime = 10`)
processed at `sysnow = 111`. -/
theorem c7_process_expired_witness :
    bplib_process fixChBlock fixStores fixRecvBundle 111 =
      (BP_EXPIRED,
        { fixChBlock with stats := { fixChBlock.stats with
            received := fixChBlock.stats.received + 1,
            expired := fixChBlock.stats.expired + 1 } },
        fixStores, 0) :=
  c7_process_expired fixChBlock fixStores fixRecvBundle 111 (by decide) (by decide)
    (by decide) (by decide)

/-- C8: a custody event whose custodian matches no open accumulator
creates one (carrying the event's delivered flag and the custody id) when
fewer than `max_concurrent_dacs` are open; otherwise `update_dacs_bundle`
sets `BP_FLAG_TOOMANYSOURCES` and fails with `BP_FAILEDRESPONSE`, leaving
the accumulators and the DACS store untouched. -/
theorem c8_dacs_accumulator_creation (ch : BpChannel) (cteb : CtebBlk)
    (delivered : Bool) (sysnow : Nat) (dacsStore : BpStore StoredBundle) (flags : Nat)
    (hnone : findDacs ch.dacs_bundle cteb.cstnode cteb.cstserv = none)
    (htree : 1 ≤ ch.attributes_max_tree_size) :
    (ch.dacs_bundle.length < ch.attributes_max_concurrent_dacs →
      update_dacs_bundle ch cteb delivered sysnow dacsStore flags =
        (BP_SUCCESS,
          { ch with dacs_bundle := ch.dacs_bundle ++
            [{ cstnode := cteb.cstnode, cstserv := cteb.cstserv,
               tree := { max_size := ch.attributes_max_tree_size, nodes := [cteb.cid] },
               delivered := delivered, last_dacs := 0,
               dstnode := cteb.cstnode, dstserv := cteb.cstserv, createseq := 0 }] },
          dacsStore, flags)) ∧
    (ch.attributes_max_concurrent_dacs ≤ ch.dacs_bundle.length →
      update_dacs_bundle ch cteb delivered sysnow dacsStore flags =
        (BP_FAILEDRESPONSE, ch, dacsStore, flags ||| BP_FLAG_TOOMANYSOURCES)) := by
  have h0 : ¬(ch.attributes_max_tree_size = 0) := by omega
  constructor
  · intro hroom
    simp [update_dacs_bundle, hnone, hroom, try_dacs_insert, rb_tree_insert, h0]
  · intro hfull
    simp [update_dacs_bundle, hnone, Nat.not_lt_of_le hfull]

/-- C8 witness: a fresh accumulator for custodian `8.7` is created on the
empty channel, and the same event against the full channel is refused
with `BP_FLAG_TOOMANYSOURCES`. -/
theorem c8_dacs_accumulator_creation_witness :
    update_dacs_bundle fixChBlock { cid := 9, cstnode := 8, cstserv := 7 } true 0
        fixStores.dacs 0 =
      (BP_SUCCESS,
        { fixChBlock with dacs_bundle :=
            [{ cstnode := 8, cstserv := 7,
               tree := { max_size := 4, nodes := [9] }, delivered := true,
               last_dacs := 0, dstnode := 8, dstserv := 7, createseq := 0 }] },
        fixStores.dacs, 0) ∧
    update_dacs_bundle fixChDacsFull { cid := 9, cstnode := 99, cstserv := 7 } true 0
        fixStores.dacs 0 =
      (BP_FAILEDRESPONSE, fixChDacsFull, fixStores.dacs, 0 ||| BP_FLAG_TOOMANYSOURCES) :=
  ⟨(c8_dacs_accumulator_creation fixChBlock { cid := 9, cstnode := 8, cstserv := 7 }
      true 0 fixStores.dacs 0 (by decide) (by decide)).1 (by decide),
   (c8_dacs_accumulator_creation fixChDacsFull { cid := 9, cstnode := 99, cstserv := 7 }
      true 0 fixStores.dacs 0 (by decide) (by decide)).2 (by decide)⟩

/-- C10: when `bplib_accept` dequeues a stored payload larger than the
caller's non-null buffer, it returns `BP_PAYLOADTOOLARGE`, counts the
payload as lost, and still relinquishes the stored record — the sid is
no longer live and no longer queued, so no later accept can return it. -/
theorem c10_accept_payload_too_large (ch : BpChannel) (st : Stores) (s : Nat)
    (p : StoredPayload) (rest : List Nat) (bufSz : Nat)
    (hq : st.payload.queue = s :: rest)
    (hlive : storeLookup st.payload.live s = some p)
    (hsz : bufSz < p.payloadsize)
    (huniq : s ∉ rest) :
    bplib_accept ch st (some bufSz) =
      (BP_PAYLOADTOOLARGE,
        { ch with stats := { ch.stats with lost := ch.stats.lost + 1 } },
        { st with payload := bp_relinquish { st.payload with queue := rest } s }, none) ∧
    storeLookup (bp_relinquish { st.payload with queue := rest } s).live s = none ∧
    s ∉ (bp_relinquish { st.payload with queue := rest } s).queue := by
  refine ⟨?_, ?_, ?_⟩
  · simp [bplib_accept, bp_dequeue, hq, hlive, Nat.not_le_of_lt hsz]
  · exact storeLookup_filter_self st.payload.live s
  · exact huniq

/-- C10 witness: a ten-byte stored payload against a four-byte buffer. -/
theorem c10_accept_payload_too_large_witness :
    bplib_accept fixChBlock
        { fixStores with payload :=
          { queue := [5], live := [(5, { request_custody := false, payloadsize := 10 })],
            nextSid := 6, maxRecs := 10 } } (some 4) =
      (BP_PAYLOADTOOLARGE,
        { fixChBlock with stats := { fixChBlock.stats with
            lost := fixChBlock.stats.lost + 1 } },
        { fixStores with payload :=
          { queue := [], live := [], nextSid := 6, maxRecs := 10 } }, none) :=
  ((c10_accept_payload_too_large fixChBlock
      { fixStores with payload :=
        { queue := [5], live := [(5, { request_custody := false, payloadsize := 10 })],
          nextSid := 6, maxRecs := 10 } }
      5 { request_custody := false, payloadsize := 10 } [] 4
      (by decide) (by decide) (by decide) (by decide)).1)

theorem bundle_stamp_is_frag (originate : Bool) (pri : BpBlkPri) (sysnow : Nat) :
    (bundle_stamp originate pri sysnow).is_frag = pri.is_frag := by
  unfold bundle_stamp
  split <;> rfl

theorem bundle_stamp_createseq (originate : Bool) (pri : BpBlkPri) (sysnow : Nat) :
    (bundle_stamp originate pri sysnow).createseq = pri.createseq := by
  unfold bundle_stamp
  split <;> rfl

theorem store_data_finish_success (originate : Bool)
    (r : Int × BpBlkPri × BpStore StoredBundle) (h : r.fst = BP_SUCCESS) :
    (store_data_finish originate r).fst = BP_SUCCESS ∧
    (store_data_finish originate r).snd.snd = r.snd.snd ∧
    (store_data_finish originate r).snd.fst.createseq =
      (if originate = true then (r.snd.fst.createseq + 1) % UINT32_MOD
        else r.snd.fst.createseq) := by
  unfold store_data_finish
  rw [if_pos h]
  by_cases ho : originate = true <;> simp [ho]

theorem store_data_finish_fail (originate : Bool)
    (r : Int × BpBlkPri × BpStore StoredBundle) (h : ¬(r.fst = BP_SUCCESS)) :
    store_data_finish originate r = r := by
  unfold store_data_finish
  rw [if_neg h]

theorem fragloop_frag_spec (maxlength paysize cidInit exprt : Nat) (hm : 1 ≤ maxlength) :
    ∀ (fuel offset : Nat) (pri : BpBlkPri) (store : BpStore StoredBundle),
    pri.is_frag = true →
    offset ≤ paysize →
    paysize - offset < fuel →
    store.live.length + (paysize - offset) ≤ store.maxRecs →
    ∃ recs,
      (store_data_fragloop maxlength paysize cidInit exprt fuel offset pri store).fst
        = BP_SUCCESS ∧
      (store_data_fragloop maxlength paysize cidInit exprt fuel offset pri store).snd.snd.live.map
          Prod.snd
        = store.live.map Prod.snd ++ recs ∧
      fragTiles paysize offset recs = true ∧
      ∀ r ∈ recs, r.fragsize ≤ maxlength := by
  intro fuel
  induction fuel with
  | zero =>
    intro offset pri store _ _ hf _
    omega
  | succ fuel ih =>
    intro offset pri store hfrag hle hf hcap
    by_cases hov : offset < paysize
    · have hrem : 1 ≤ paysize - offset := by omega
      have hlen : store.live.length < store.maxRecs := by omega
      set frag := if maxlength < paysize - offset then maxlength else paysize - offset
        with hfragdef
      have hfrag1 : 1 ≤ frag := by
        rw [hfragdef]
        split <;> omega
      have hfragle : frag ≤ paysize - offset := by
        rw [hfragdef]
        split <;> omega
      have hfragmax : frag ≤ maxlength := by
        rw [hfragdef]
        split <;> omega
      set pri1 : BpBlkPri := { pri with fragoffset := offset, paylen := paysize, is_frag := true }
        with hpri1
      set rec1 : StoredBundle :=
        { exprtime := exprt,
          cteboffset := if pri.request_custody = true then 1 else 0,
          cidValue := cidInit,
          bundlesize := MODEL_HEADER_SIZE + frag,
          fragoffset := offset,
          paylen := paysize,
          fragsize := frag,
          createsec := pri.createsec,
          createseq := pri.createseq } with hrec1
      set store1 : BpStore StoredBundle :=
        { store with queue := store.queue ++ [store.nextSid],
                     live := store.live ++ [(store.nextSid, rec1)],
                     nextSid := store.nextSid + 1 } with hstore1
      have hstep :
          store_data_fragloop maxlength paysize cidInit exprt (fuel + 1) offset pri store
            = store_data_fragloop maxlength paysize cidInit exprt fuel (offset + frag)
                pri1 store1 := by
        simp only [store_data_fragloop, if_pos hov, hfrag, if_true, bp_enqueue,
          if_pos hlen]
        norm_num [BP_SUCCESS]
      obtain ⟨recs, hst, hlive, htiles, hsz⟩ :=
        ih (offset + frag) pri1 store1 (by simp [hpri1]) (by omega) (by omega)
          (by simp only [hstore1, List.length_append, List.length_cons]; simp; omega)
      refine ⟨rec1 :: recs, ?_, ?_, ?_, ?_⟩
      · rw [hstep]; exact hst
      · rw [hstep, hlive]
        simp [hstore1]
      · simp only [fragTiles, hrec1]
        have h1 : (offset == offset) = true := by simp
        have h2 : (paysize == paysize) = true := by simp
        have h3 : (frag != 0) = true := by
          simp only [bne_iff_ne, ne_eq]
          omega
        have h4 : Nat.ble (offset + frag) paysize = true := by
          rw [Nat.ble_eq]
          omega
        simp only [h1, h2, h3, h4, Bool.true_and, Bool.and_true]
        exact htiles
      · intro r hr
        rcases List.mem_cons.mp hr with hr | hr
        · subst hr
          simpa using hfragmax
        · exact hsz r hr
    · have hoe : offset = paysize := by omega
      refine ⟨[], ?_, ?_, ?_, ?_⟩
      · simp [store_data_fragloop, hov]
      · simp [store_data_fragloop, hov]
      · simp [fragTiles, hoe]
      · intro r hr
        simp at hr

theorem fragloop_createseq_const (maxlength paysize cidInit exprt : Nat) :
    ∀ (fuel offset : Nat) (pri : BpBlkPri) (store : BpStore StoredBundle),
    (store_data_fragloop maxlength paysize cidInit exprt fuel offset pri store).snd.fst.createseq
      = pri.createseq := by
  intro fuel
  induction fuel with
  | zero => intro offset pri store; rfl
  | succ fuel ih =>
    intro offset pri store
    by_cases hov : offset < paysize
    · by_cases hlen : store.live.length < store.maxRecs
      · simp only [store_data_fragloop, if_pos hov, bp_enqueue, if_pos hlen]
        norm_num [BP_SUCCESS]
        rw [ih]
        by_cases hfr : pri.is_frag = true <;> simp [hfr]
      · simp only [store_data_fragloop, if_pos hov, bp_enqueue, if_neg hlen]
        norm_num [BP_TIMEOUT]
        by_cases hfr : pri.is_frag = true <;> simp [hfr]
    · simp [store_data_fragloop, if_neg hov]

theorem store_data_bundle_frag_spec (pri : BpBlkPri) (maxlength : Nat) (originate : Bool)
    (cidInit paysize : Nat) (store : BpStore StoredBundle) (sysnow : Nat)
    (hfr : pri.is_frag = true) (hm : 1 ≤ maxlength)
    (hcap : store.live.length + paysize ≤ store.maxRecs) :
    (store_data_bundle pri maxlength originate cidInit paysize store sysnow).fst
      = BP_SUCCESS ∧
    ∃ recs,
      (store_data_bundle pri maxlength originate cidInit paysize store
          sysnow).snd.snd.live.map Prod.snd
        = store.live.map Prod.snd ++ recs ∧
      fragTiles paysize 0 recs = true ∧
      ∀ r ∈ recs, r.fragsize ≤ maxlength := by
  have hnotbig : ¬((!pri.is_frag) = true ∧ maxlength < paysize) := by
    simp [hfr]
  obtain ⟨recs, hst, hlive, htiles, hsz⟩ :=
    fragloop_frag_spec maxlength paysize cidInit
      (bundle_exprtime (bundle_stamp originate pri sysnow)) hm
      (paysize + 1) 0 (bundle_stamp originate pri sysnow) store
      (by rw [bundle_stamp_is_frag]; exact hfr) (by omega) (by omega)
      (by simpa using hcap)
  obtain ⟨hf1, hf2, _⟩ := store_data_finish_success originate _ hst
  constructor
  · simp only [store_data_bundle, if_neg hnotbig]
    exact hf1
  · refine ⟨recs, ?_, htiles, hsz⟩
    simp only [store_data_bundle, if_neg hnotbig]
    rw [hf2]
    exact hlive

theorem store_data_bundle_seq_cases (pri : BpBlkPri) (maxlength : Nat) (originate : Bool)
    (cidInit paysize : Nat) (store : BpStore StoredBundle) (sysnow : Nat) :
    ((store_data_bundle pri maxlength originate cidInit paysize store sysnow).fst
        = BP_SUCCESS ∧
      (store_data_bundle pri maxlength originate cidInit paysize store
          sysnow).snd.fst.createseq =
        (if originate = true then (pri.createseq + 1) % UINT32_MOD
          else pri.createseq)) ∨
    ((store_data_bundle pri maxlength originate cidInit paysize store sysnow).fst
        ≠ BP_SUCCESS ∧
      (store_data_bundle pri maxlength originate cidInit paysize store
          sysnow).snd.fst.createseq = pri.createseq) := by
  by_cases hbig : (!pri.is_frag) = true ∧ maxlength < paysize
  · right
    constructor
    · simp only [store_data_bundle, if_pos hbig]
      decide
    · simp only [store_data_bundle, if_pos hbig]
  · by_cases hS :
      (store_data_fragloop maxlength paysize cidInit
        (bundle_exprtime (bundle_stamp originate pri sysnow)) (paysize + 1) 0
        (bundle_stamp originate pri sysnow) store).fst = BP_SUCCESS
    · left
      obtain ⟨hf1, _, hf3⟩ := store_data_finish_success originate _ hS
      constructor
      · simp only [store_data_bundle, if_neg hbig]
        exact hf1
      · simp only [store_data_bundle, if_neg hbig]
        rw [hf3, fragloop_createseq_const, bundle_stamp_createseq]
    · right
      have hf := store_data_finish_fail originate _ hS
      constructor
      · simp only [store_data_bundle, if_neg hbig]
        rw [hf]
        exact hS
      · simp only [store_data_bundle, if_neg hbig]
        rw [hf, fragloop_createseq_const, bundle_stamp_createseq]

theorem store_data_bundle_full_timeout (pri : BpBlkPri) (maxlength : Nat)
    (originate : Bool) (cidInit paysize : Nat) (store : BpStore StoredBundle)
    (sysnow : Nat)
    (hfull : store.maxRecs ≤ store.live.length) (hp : 0 < paysize)
    (hnb : ¬((!pri.is_frag) = true ∧ maxlength < paysize)) :
    (store_data_bundle pri maxlength originate cidInit paysize store sysnow).fst
      = BP_TIMEOUT := by
  have hlen : ¬(store.live.length < store.maxRecs) := by omega
  have hloop :
      (store_data_fragloop maxlength paysize cidInit
        (bundle_exprtime (bundle_stamp originate pri sysnow)) (paysize + 1) 0
        (bundle_stamp originate pri sysnow) store).fst = BP_TIMEOUT := by
    simp only [store_data_fragloop, if_pos hp, bp_enqueue, if_neg hlen]
    norm_num [BP_TIMEOUT]
  simp only [store_data_bundle, if_neg hnb]
  rw [store_data_finish_fail, hloop]
  rw [hloop]
  decide

/-- C5: with fragmentation disallowed (through the `BP_OPT_ALLOWFRAG_D`
setter, which ties `is_frag` to `allow_frag`), a payload exceeding the
maximum bundle length fails `store_data_bundle` with `BP_BUNDLETOOLARGE`
and enqueues nothing; with fragmentation allowed and enough storage, the
payload is enqueued as fragments whose `fragoffset` fields tile the
payload, each carrying the total payload length and at most
`max_bundle_length` bytes. -/
theorem c5_store_fragmentation (pri0 : BpBlkPri) (maxlength : Nat) (originate : Bool)
    (cidInit paysize : Nat) (store : BpStore StoredBundle) (sysnow : Nat) :
    (maxlength < paysize →
      store_data_bundle (getset_opt_allowfrag pri0 false) maxlength originate cidInit
          paysize store sysnow
        = (BP_BUNDLETOOLARGE, getset_opt_allowfrag pri0 false, store)) ∧
    (1 ≤ maxlength → store.live.length + paysize ≤ store.maxRecs →
      (store_data_bundle (getset_opt_allowfrag pri0 true) maxlength originate cidInit
          paysize store sysnow).fst = BP_SUCCESS ∧
      ∃ recs,
        (store_data_bundle (getset_opt_allowfrag pri0 true) maxlength originate cidInit
            paysize store sysnow).snd.snd.live.map Prod.snd
          = store.live.map Prod.snd ++ recs ∧
        fragTiles paysize 0 recs = true ∧
        ∀ r ∈ recs, r.fragsize ≤ maxlength) := by
  constructor
  · intro hbig
    simp [store_data_bundle, getset_opt_allowfrag, hbig]
  · intro hm hcap
    exact store_data_bundle_frag_spec (getset_opt_allowfrag pri0 true) maxlength
      originate cidInit paysize store sysnow (by simp [getset_opt_allowfrag]) hm hcap

/-- C5 witness: a nine-byte payload against `max_bundle_length = 4` — the
no-fragmentation call fails with `BP_BUNDLETOOLARGE` and stores nothing,
the fragmenting call succeeds. -/
theorem c5_store_fragmentation_witness :
    store_data_bundle (getset_opt_allowfrag fixPri false) 4 true 0 9 fixStores.data 0
      = (BP_BUNDLETOOLARGE, getset_opt_allowfrag fixPri false, fixStores.data) ∧
    (store_data_bundle (getset_opt_allowfrag fixPri true) 4 true 0 9
        fixStores.data 0).fst = BP_SUCCESS :=
  ⟨(c5_store_fragmentation fixPri 4 true 0 9 fixStores.data 0).1 (by decide),
   ((c5_store_fragmentation fixPri 4 true 0 9 fixStores.data 0).2
      (by decide) (by decide)).1⟩

/-- C6 counterexample: the claim says a failed enqueue during store
surfaces `BP_FAILEDSTORE`; against a full storage handle the `bplib_store`
call returns the storage service's own enqueue status (`BP_TIMEOUT` under
the spec's storage contract), not `BP_FAILEDSTORE` — while the sequence
counter is indeed left unchanged. -/
theorem c6_store_failure_counterexample :
    (bplib_store fixChBlock
        { fixStores with data := { queue := [], live := [], nextSid := 0, maxRecs := 0 } }
        4 0).fst = BP_TIMEOUT ∧
    BP_TIMEOUT ≠ BP_FAILEDSTORE ∧
    (bplib_store fixChBlock
        { fixStores with data := { queue := [], live := [], nextSid := 0, maxRecs := 0 } }
        4 0).snd.fst.data_pri.createseq = fixChBlock.data_pri.createseq := by
  decide

/-- C6 (amended): if the storage enqueue fails during store, the operation
surfaces the failing enqueue status exactly as the storage service
returned it (`BP_TIMEOUT` when the handle is full), and the creation
sequence counter is left unchanged; the counter is advanced (as uint32)
exactly when the whole bundle was stored successfully. -/
theorem c6_store_failure_amended (ch : BpChannel) (st : Stores) (paysize sysnow : Nat)
    (hor : ch.data_originate = true) :
    ((bplib_store ch st paysize sysnow).fst ≠ BP_SUCCESS →
      (bplib_store ch st paysize sysnow).snd.fst.data_pri.createseq
        = ch.data_pri.createseq) ∧
    ((bplib_store ch st paysize sysnow).fst = BP_SUCCESS →
      (bplib_store ch st paysize sysnow).snd.fst.data_pri.createseq
        = (ch.data_pri.createseq + 1) % UINT32_MOD) ∧
    (st.data.maxRecs ≤ st.data.live.length → 0 < paysize →
      ¬((!ch.data_pri.is_frag) = true ∧ ch.data_maxlength < paysize) →
      (bplib_store ch st paysize sysnow).fst = BP_TIMEOUT) := by
  have hb : bplib_store ch st paysize sysnow =
      (let r := store_data_bundle ch.data_pri ch.data_maxlength true 0 paysize
        st.data sysnow
      let stats1 := if r.fst = BP_SUCCESS then
          { ch.stats with generated := ch.stats.generated + 1 }
        else ch.stats
      let ch1 := { ch with data_pri := r.snd.fst, stats := stats1 }
      (r.fst, ch1, { st with data := r.snd.snd })) := by
    simp [bplib_store, hor]
  rcases store_data_bundle_seq_cases ch.data_pri ch.data_maxlength true 0 paysize
      st.data sysnow with ⟨hs, hq⟩ | ⟨hs, hq⟩
  · refine ⟨?_, ?_, ?_⟩
    · intro hne
      rw [hb] at hne
      exact absurd hs hne
    · intro
      rw [hb]
      simpa using hq
    · intro hfull hp hnb
      have := store_data_bundle_full_timeout ch.data_pri ch.data_maxlength true 0
        paysize st.data sysnow hfull hp hnb
      rw [this] at hs
      exact absurd hs (by decide)
  · refine ⟨?_, ?_, ?_⟩
    · intro
      rw [hb]
      simpa using hq
    · intro he
      rw [hb] at he
      exact absurd he hs
    · intro hfull hp hnb
      rw [hb]
      simpa using store_data_bundle_full_timeout ch.data_pri ch.data_maxlength true 0
        paysize st.data sysnow hfull hp hnb

/-- C6 witness: the failure conjunct at the concrete full store, and the
success conjunct on a fresh store. -/
theorem c6_store_failure_amended_witness :
    (bplib_store fixChBlock
        { fixStores with data := { queue := [], live := [], nextSid := 0, maxRecs := 0 } }
        4 0).snd.fst.data_pri.createseq = fixChBlock.data_pri.createseq ∧
    (bplib_store fixChBlock fixStores 4 0).snd.fst.data_pri.createseq
      = (fixChBlock.data_pri.createseq + 1) % UINT32_MOD :=
  ⟨(c6_store_failure_amended fixChBlock
      { fixStores with data := { queue := [], live := [], nextSid := 0, maxRecs := 0 } }
      4 0 (by decide)).1 (by decide),
   ((c6_store_failure_amended fixChBlock fixStores 4 0 (by decide)).2.1 (by decide))⟩

/-- C3 counterexample: the claim says two `process` calls on the same
bundle cause at most one payload-store enqueue; in the code the deliver
path enqueues the payload unconditionally on every call (no duplicate
detection before the DACS tree), so the second call leaves two copies in
the payload store. -/
theorem c3_process_idempotence_counterexample :
    (bplib_process fixChBlock fixStores (c3Bundle 3 4 7 5) 0).snd.snd.fst.payload.live.length
      = 1 ∧
    ((bplib_process
        (bplib_process fixChBlock fixStores (c3Bundle 3 4 7 5) 0).snd.fst
        (bplib_process fixChBlock fixStores (c3Bundle 3 4 7 5) 0).snd.snd.fst
        (c3Bundle 3 4 7 5) 0).snd.snd.fst.payload.live.length) = 2 := by
  decide

/-- C3 (amended): calling `bplib_process` twice on the same serialized
data bundle enqueues the payload into the payload store on each call (two
enqueues), but causes at most one insertion of its custody id into the
DACS accumulator — the accumulator holds the custody id exactly once —
and the second call sets the `BP_FLAG_DUPLICATES` flag. -/
theorem c3_process_twice_amended (cn cs cid paysize sysnow : Nat) :
    (bplib_process fixChBlock fixStores (c3Bundle cn cs cid paysize) sysnow).fst
      = BP_SUCCESS ∧
    ((bplib_process
        (bplib_process fixChBlock fixStores (c3Bundle cn cs cid paysize) sysnow).snd.fst
        (bplib_process fixChBlock fixStores (c3Bundle cn cs cid paysize) sysnow).snd.snd.fst
        (c3Bundle cn cs cid paysize) sysnow).fst) = BP_SUCCESS ∧
    ((bplib_process
        (bplib_process fixChBlock fixStores (c3Bundle cn cs cid paysize) sysnow).snd.fst
        (bplib_process fixChBlock fixStores (c3Bundle cn cs cid paysize) sysnow).snd.snd.fst
        (c3Bundle cn cs cid paysize) sysnow).snd.snd.fst.payload.live.length) = 2 ∧
    ((bplib_process
        (bplib_process fixChBlock fixStores (c3Bundle cn cs cid paysize) sysnow).snd.fst
        (bplib_process fixChBlock fixStores (c3Bundle cn cs cid paysize) sysnow).snd.snd.fst
        (c3Bundle cn cs cid paysize) sysnow).snd.fst.dacs_bundle) =
      [{ cstnode := cn, cstserv := cs, tree := { max_size := 4, nodes := [cid] },
         delivered := true, last_dacs := 0, dstnode := cn, dstserv := cs,
         createseq := 0 }] ∧
    ((bplib_process
        (bplib_process fixChBlock fixStores (c3Bundle cn cs cid paysize) sysnow).snd.fst
        (bplib_process fixChBlock fixStores (c3Bundle cn cs cid paysize) sysnow).snd.snd.fst
        (c3Bundle cn cs cid paysize) sysnow).snd.snd.snd) &&& BP_FLAG_DUPLICATES ≠ 0 := by
  simp [bplib_process, update_dacs_bundle, findDacs, try_dacs_insert, rb_tree_insert,
    bp_enqueue, c3Bundle, fixChBlock, fixStores, fixPri, zeroStats, BP_SUCCESS,
    BP_FLAG_DUPLICATES, BP_FLAG_NONCOMPLIANT, UINT32_MOD]

theorem assocUpdate_map_fst {β : Type} (l : List (Nat × β)) (k : Nat) (f : β → β) :
    (assocUpdate l k f).map Prod.fst = l.map Prod.fst := by
  induction l with
  | nil => rfl
  | cons kv t ih =>
    by_cases h : kv.fst = k
    · simp [assocUpdate, h, ih]
    · simp [assocUpdate, h, ih]

theorem storeLookup_assocUpdate_self {β : Type} (l : List (Nat × β)) (k : Nat)
    (f : β → β) (v : β) (h : storeLookup l k = some v) :
    storeLookup (assocUpdate l k f) k = some (f v) := by
  induction l with
  | nil => simp [storeLookup] at h
  | cons kv t ih =>
    rw [assocUpdate]
    by_cases hk : kv.fst = k
    · rw [if_pos hk]
      simp [storeLookup, hk] at h
      simp [storeLookup, h]
    · rw [if_neg hk]
      simp [storeLookup, hk] at h
      simp only [storeLookup]
      rw [if_neg hk]
      exact ih h

theorem storeLookup_assocUpdate_ne {β : Type} (l : List (Nat × β)) (k j : Nat)
    (f : β → β) (h : j ≠ k) :
    storeLookup (assocUpdate l k f) j = storeLookup l j := by
  induction l with
  | nil => rfl
  | cons kv t ih =>
    rw [assocUpdate]
    by_cases hk : kv.fst = k
    · rw [if_pos hk]
      simp only [storeLookup]
      rw [if_neg (fun hc => h hc.symm), if_neg (by rw [hk]; exact fun hc => h hc.symm)]
      exact ih
    · rw [if_neg hk]
      simp only [storeLookup]
      by_cases hj : kv.fst = j
      · rw [if_pos hj, if_pos hj]
      · rw [if_neg hj, if_neg hj]
        exact ih

theorem find_existing_entries_shape (st : CacheState) (flow : IpnAddr) (seq : Nat) :
    (bplib_cache_custody_find_existing_bundle st flow seq).snd.entries.map Prod.fst
      = st.entries.map Prod.fst ∧
    (bplib_cache_custody_find_existing_bundle st flow seq).snd.nextId = st.nextId := by
  unfold bplib_cache_custody_find_existing_bundle
  cases h1 : storeLookup st.hash_index (custodyHashBundle flow seq) with
  | none => exact ⟨rfl, rfl⟩
  | some ids =>
    cases h2 : findBundleMatch st.entries flow seq ids with
    | none => simp [h2]
    | some id => simp [h2, assocUpdate_map_fst]

/-- C9: storing a bundle into the v7 custody cache when a matching entry
for the same flow and sequence number already exists does not create a new
cache entry (the set of entry ids and the id counter are unchanged); the
duplicate path instead acknowledges the carried custody block, appending
the sequence number to the already-open DACS accumulator for its previous
custodian (so that accumulator contains the sequence number afterwards),
and leaves the matched bundle entry as the duplicate lookup left it. -/
theorem c9_cache_duplicate_store (st : CacheState) (b : CacheBundle) (now : Nat)
    (e dId : Nat) (st1 : CacheState) (dEntry : CacheEntry) (dp : DacsPending)
    (hfind : bplib_cache_custody_find_existing_bundle st b.sourceEid b.sequence_num
      = (some e, st1))
    (hcb : b.has_custody_block = true)
    (hpend : bplib_cache_custody_find_pending_dacs st1 b.sourceEid b.current_custodian
      = some dId)
    (hdent : storeLookup st1.entries dId = some dEntry)
    (hdp : dEntry.dacs = some dp)
    (hlen : dp.sequence_nums.length + 1 < BP_DACS_MAX_SEQ_PER_PAYLOAD)
    (hne : e ≠ dId) :
    (bplib_cache_custody_store_bundle st b now).entries.map Prod.fst
      = st.entries.map Prod.fst ∧
    (bplib_cache_custody_store_bundle st b now).nextId = st.nextId ∧
    (∃ dp2 : DacsPending,
      storeLookup (bplib_cache_custody_store_bundle st b now).entries dId
        = some { dEntry with dacs := some dp2 } ∧
      dp2.sequence_nums.contains b.sequence_num = true) ∧
    storeLookup (bplib_cache_custody_store_bundle st b now).entries e
      = storeLookup st1.entries e := by
  have hsh := find_existing_entries_shape st b.sourceEid b.sequence_num
  rw [hfind] at hsh
  have hsb : bplib_cache_custody_store_bundle st b now
      = bplib_cache_custody_ack_tracking_block st1 b.has_custody_block
          b.current_custodian b.sourceEid b.sequence_num now := by
    unfold bplib_cache_custody_store_bundle
    rw [hfind]
  have hack : bplib_cache_custody_ack_tracking_block st1 b.has_custody_block
      b.current_custodian b.sourceEid b.sequence_num now
      = bplib_cache_custody_append_dacs st1 dId b.sequence_num := by
    unfold bplib_cache_custody_ack_tracking_block
    rw [hcb]
    simp only [if_true]
    rw [hpend]
  rw [hsb, hack]
  unfold bplib_cache_custody_append_dacs
  simp only [hdent, hdp]
  by_cases hc : dp.sequence_nums.contains b.sequence_num = true
  · have hmem : b.sequence_num ∈ dp.sequence_nums := by
      simpa using hc
    have hmax : ¬(dp.sequence_nums.length = BP_DACS_MAX_SEQ_PER_PAYLOAD) := by omega
    simp [hmem, hmax]
    refine ⟨?_, hsh.2, ⟨dp, ?_, hmem⟩, ?_⟩
    · rw [assocUpdate_map_fst]
      exact hsh.1
    · exact storeLookup_assocUpdate_self st1.entries dId _ dEntry hdent
    · exact storeLookup_assocUpdate_ne st1.entries dId e _ hne
  · have hmem : ¬(b.sequence_num ∈ dp.sequence_nums) := by
      simpa using hc
    have hlt : dp.sequence_nums.length < BP_DACS_MAX_SEQ_PER_PAYLOAD := by omega
    have hmax : ¬(dp.sequence_nums.length + 1 = BP_DACS_MAX_SEQ_PER_PAYLOAD) := by omega
    simp [hmem, hlt, hmax]
    refine ⟨?_, hsh.2,
      ⟨{ dp with sequence_nums := dp.sequence_nums ++ [b.sequence_num] }, ?_, ?_⟩, ?_⟩
    · rw [assocUpdate_map_fst]
      exact hsh.1
    · exact storeLookup_assocUpdate_self st1.entries dId _ dEntry hdent
    · simp
    · exact storeLookup_assocUpdate_ne st1.entries dId e _ hne

/-- C9 witness: re-storing `c9Bundle` into `c9State1` (which already holds
it as entry 0 and its open DACS accumulator as entry 1) at time 2000. -/
theorem c9_cache_duplicate_store_witness :
    (bplib_cache_custody_store_bundle c9State1 c9Bundle 2000).entries.map Prod.fst
      = c9State1.entries.map Prod.fst ∧
    (bplib_cache_custody_store_bundle c9State1 c9Bundle 2000).nextId = c9State1.nextId ∧
    (∃ dp2 : DacsPending,
      storeLookup (bplib_cache_custody_store_bundle c9State1 c9Bundle 2000).entries 1
        = some { c9Entry with dacs := some dp2 } ∧
      dp2.sequence_nums.contains c9Bundle.sequence_num = true) ∧
    storeLookup (bplib_cache_custody_store_bundle c9State1 c9Bundle 2000).entries 0
      = storeLookup c9State2.entries 0 :=
  c9_cache_duplicate_store c9State1 c9Bundle 2000 0 1 c9State2 c9Entry c9Dp
    (by decide) (by decide) (by decide) (by decide) (by decide) (by decide) (by decide)

theorem natToDigits_digits (n : Nat) : ∀ c ∈ natToDigits n, 48 ≤ c ∧ c ≤ 57 := by
  induction n using Nat.strong_induction_on with
  | _ n ih =>
    rw [natToDigits]
    by_cases h : n < 10
    · rw [dif_pos h]
      intro c hc
      simp at hc
      omega
    · rw [dif_neg h]
      intro c hc
      rcases List.mem_append.mp hc with hc | hc
      · exact ih (n / 10) (Nat.div_lt_self (by omega) (by decide)) c hc
      · simp at hc
        have : n % 10 < 10 := Nat.mod_lt _ (by decide)
        omega

theorem natToDigits_length_pos (n : Nat) : 1 ≤ (natToDigits n).length := by
  rw [natToDigits]
  by_cases h : n < 10
  · rw [dif_pos h]; simp
  · rw [dif_neg h]; simp

theorem natToDigits_length_le (k : Nat) : ∀ n, n < 10 ^ (k + 1) → (natToDigits n).length ≤ k + 1 := by
  induction k with
  | zero =>
    intro n hn
    rw [natToDigits, dif_pos (by omega : n < 10)]
    simp
  | succ k ih =>
    intro n hn
    rw [natToDigits]
    by_cases h : n < 10
    · rw [dif_pos h]; simp
    · rw [dif_neg h]
      have hd : n / 10 < 10 ^ (k + 1) := by
        have h10 : (10:Nat) ^ (k + 2) = 10 ^ (k + 1) * 10 := by ring
        rw [h10] at hn
        exact Nat.div_lt_of_lt_mul (by omega)
      have := ih (n / 10) hd
      simp
      omega

theorem splitAtDot_append (a b : List Nat) (h : ∀ c ∈ a, c ≠ 46) :
    splitAtDot (a ++ 46 :: b) = some (a, b) := by
  induction a with
  | nil => simp [splitAtDot]
  | cons c t ih =>
    have hc : c ≠ 46 := h c (by simp)
    have ht : ∀ x ∈ t, x ≠ 46 := fun x hx => h x (by simp [hx])
    simp [splitAtDot, hc, ih ht]

theorem strtoulDigits_append (a : List Nat) :
    ∀ (r : List Nat) (acc : Nat), (∀ c ∈ a, 48 ≤ c ∧ c ≤ 57) →
      strtoulDigits (a ++ r) acc
        = strtoulDigits r (a.foldl (fun x c => x * 10 + (c - 48)) acc) := by
  induction a with
  | nil => intro r acc _; simp
  | cons c t ih =>
    intro r acc h
    have hc := h c (by simp)
    have ht : ∀ x ∈ t, 48 ≤ x ∧ x ≤ 57 := fun x hx => h x (by simp [hx])
    simp only [List.cons_append, strtoulDigits, if_pos hc, List.foldl_cons]
    exact ih r (acc * 10 + (c - 48)) ht

theorem natToDigits_foldl (n : Nat) : ∀ acc : Nat,
    (natToDigits n).foldl (fun x c => x * 10 + (c - 48)) acc
      = acc * 10 ^ (natToDigits n).length + n := by
  induction n using Nat.strong_induction_on with
  | _ n ih =>
    intro acc
    rw [natToDigits]
    by_cases h : n < 10
    · rw [dif_pos h]
      simp
    · rw [dif_neg h]
      rw [List.foldl_append]
      rw [ih (n / 10) (Nat.div_lt_self (by omega) (by decide)) acc]
      simp [List.length_append]
      have hmod : n % 10 < 10 := Nat.mod_lt _ (by decide)
      have hdm := Nat.div_add_mod n 10
      ring_nf
      omega

theorem strtoul10_natToDigits (n : Nat) (hn : n ≤ ULONG_MAX) :
    strtoul10 (natToDigits n) = ((natToDigits n).length, n, false) := by
  have h1 : strtoulDigits (natToDigits n) 0 = (n, []) := by
    have := strtoulDigits_append (natToDigits n) [] 0 (natToDigits_digits n)
    rw [List.append_nil] at this
    rw [this, natToDigits_foldl n 0]
    simp [strtoulDigits]
  rw [strtoul10, h1]
  simp
  omega

theorem eid2ipn_ipn_form (rest : List Nat)
    (h7 : ¬((105 :: 112 :: 110 :: 58 :: rest).length < 7))
    (h128 : ¬(BP_MAX_EID_STRING < (105 :: 112 :: 110 :: 58 :: rest).length)) :
    bplib_eid2ipn (105 :: 112 :: 110 :: 58 :: rest) = eid2ipn_segments rest := by
  rw [bplib_eid2ipn, if_neg h7, if_neg h128]
  simp

theorem eid2ipn_render (n s : Nat) (hn : n < UINT32_MOD) (hs : s < UINT32_MOD)
    (hln : (natToDigits n).length ≤ 10) (hls : (natToDigits s).length ≤ 10) :
    bplib_eid2ipn ([105, 112, 110, 58] ++ natToDigits n ++ [46] ++ natToDigits s)
      = some (n, s) := by
  have hnpos := natToDigits_length_pos n
  have hspos := natToDigits_length_pos s
  have hndot : ∀ c ∈ natToDigits n, c ≠ 46 := by
    intro c hc
    have := natToDigits_digits n c hc
    omega
  have hsplit : splitAtDot (natToDigits n ++ 46 :: natToDigits s)
      = some (natToDigits n, natToDigits s) := splitAtDot_append _ _ hndot
  have huln : n ≤ ULONG_MAX := by rw [ULONG_MAX]; rw [UINT32_MOD] at hn; omega
  have huls : s ≤ ULONG_MAX := by rw [ULONG_MAX]; rw [UINT32_MOD] at hs; omega
  have hform : [105, 112, 110, 58] ++ natToDigits n ++ [46] ++ natToDigits s
      = 105 :: 112 :: 110 :: 58 :: (natToDigits n ++ 46 :: natToDigits s) := by
    simp
  rw [hform]
  rw [eid2ipn_ipn_form _
    (by simp [List.length_append]; omega)
    (by simp [List.length_append, BP_MAX_EID_STRING]; omega)]
  rw [eid2ipn_segments]
  rw [hsplit]
  simp only [strtoul10_natToDigits n huln, strtoul10_natToDigits s huls]
  rw [if_neg (fun hcontra => by
    rcases hcontra with h0 | hr
    · omega
    · exact absurd hr.2 (by decide))]
  rw [if_neg (fun hcontra => by
    rcases hcontra with h0 | hr
    · omega
    · exact absurd hr.2 (by decide))]
  rw [Nat.mod_eq_of_lt hn, Nat.mod_eq_of_lt hs]

/-- C4: for any node and service numbers in `[1, 2^32)`, rendering
`ipn:<n>.<s>` with `bplib_ipn2eid` into a full-size buffer and parsing the
result back with `bplib_eid2ipn` succeeds and returns exactly `(n, s)`. -/
theorem c4_eid_roundtrip (n s : Nat) (hn1 : 1 ≤ n) (hn : n < UINT32_MOD)
    (hs1 : 1 ≤ s) (hs : s < UINT32_MOD) :
    (bplib_ipn2eid BP_MAX_EID_STRING n s).bind bplib_eid2ipn = some (n, s) := by
  have hln : (natToDigits n).length ≤ 10 := by
    refine natToDigits_length_le 9 n ?_
    rw [UINT32_MOD] at hn
    norm_num
    omega
  have hls : (natToDigits s).length ≤ 10 := by
    refine natToDigits_length_le 9 s ?_
    rw [UINT32_MOD] at hs
    norm_num
    omega
  rw [bplib_ipn2eid]
  rw [if_neg (by decide)]
  rw [if_neg (Nat.lt_irrefl _)]
  have htake : ([105, 112, 110, 58] ++ natToDigits n ++ [46] ++ natToDigits s).take
      (BP_MAX_EID_STRING - 1) = [105, 112, 110, 58] ++ natToDigits n ++ [46] ++ natToDigits s := by
    refine List.take_of_length_le ?_
    simp [List.length_append, BP_MAX_EID_STRING]
    omega
  show (some (([105, 112, 110, 58] ++ natToDigits n ++ [46] ++ natToDigits s).take
      (BP_MAX_EID_STRING - 1))).bind bplib_eid2ipn = some (n, s)
  rw [htake]
  rw [Option.some_bind]
  exact eid2ipn_render n s hn hs hln hls

/-- C4 witness: the roundtrip at the extreme point `n = 2^32 - 1`, `s = 7`. -/
theorem c4_eid_roundtrip_witness :
    1 ≤ 4294967295 ∧ 4294967295 < UINT32_MOD ∧ 1 ≤ 7 ∧ 7 < UINT32_MOD ∧
    (bplib_ipn2eid BP_MAX_EID_STRING 4294967295 7).bind bplib_eid2ipn
      = some (4294967295, 7) :=
  ⟨by decide, by decide, by decide, by decide,
    c4_eid_roundtrip 4294967295 7 (by decide) (by decide) (by decide) (by decide)⟩

theorem listGetD_set_self {α : Type} (l : List α) (i : Nat) (v d : α) (h : i < l.length) :
    (l.set i v).getD i d = v := by
  induction l generalizing i with
  | nil => simp at h
  | cons a t ih =>
    cases i with
    | zero => simp
    | succ i =>
      simp at h
      simpa using ih i (by omega)

theorem listGetD_set_ne {α : Type} (l : List α) (i j : Nat) (v d : α) (h : j ≠ i) :
    (l.set i v).getD j d = l.getD j d := by
  induction l generalizing i j with
  | nil => simp
  | cons a t ih =>
    cases i with
    | zero =>
      cases j with
      | zero => omega
      | succ j => simp
    | succ i =>
      cases j with
      | zero => simp
      | succ j => simpa using ih i j (by omega)

theorem storeLookup_mem {α : Type} (l : List (Nat × α)) (s : Nat) (v : α)
    (h : storeLookup l s = some v) : (s, v) ∈ l := by
  induction l with
  | nil => simp [storeLookup] at h
  | cons kv t ih =>
    rw [storeLookup] at h
    by_cases hk : kv.fst = s
    · rw [if_pos hk] at h
      injection h with h
      apply List.mem_cons.mpr
      left
      cases kv
      simp only at hk h
      rw [hk, h]
    · rw [if_neg hk] at h
      exact List.mem_cons_of_mem _ (ih h)

theorem bp_dequeue_lookup {α : Type} (st : BpStore α) (s : Nat) (v : α)
    (h : (bp_dequeue st).snd.fst = some (s, v)) : storeLookup st.live s = some v := by
  rw [bp_dequeue] at h
  cases hq : st.queue with
  | nil => rw [hq] at h; simp at h
  | cons q rest =>
    rw [hq] at h
    cases hl : storeLookup st.live q with
    | none => simp only [hl] at h; simp at h
    | some r =>
      simp only [hl] at h
      simp at h
      rw [h.1] at hl
      rw [hl, h.2]

theorem bp_enqueue_live_mem {α : Type} (st : BpStore α) (r : α) (p : Nat × α)
    (h : p ∈ (bp_enqueue st r).snd.live) : p ∈ st.live ∨ p.snd = r := by
  rw [bp_enqueue] at h
  by_cases hc : st.live.length < st.maxRecs
  · rw [if_pos hc] at h
    simp at h
    rcases h with h | h
    · exact Or.inl h
    · right; rw [h]
  · rw [if_neg hc] at h
    exact Or.inl h

theorem store_dacs_loop_zero (maxFills sysnow : Nat) :
    ∀ (fuel : Nat) (d : BpDacsBundle) (store : BpStore StoredBundle)
      (flags : Nat) (fs : Int) (hf : Bool),
      (∀ p ∈ store.live, p.snd.exprtime = 0) →
      ∀ p ∈ (store_dacs_loop maxFills sysnow fuel d store flags fs hf).snd.fst.live,
        p.snd.exprtime = 0 := by
  intro fuel
  induction fuel with
  | zero => intro d store flags fs hf h p hp; exact h p hp
  | succ fuel ih =>
    intro d store flags fs hf h p hp
    rw [store_dacs_loop] at hp
    by_cases he : d.tree.nodes.isEmpty
    · rw [if_pos he] at hp
      exact h p hp
    · rw [if_neg he] at hp
      have hen : ∀ q ∈ (bp_enqueue store
          { exprtime := 0, cteboffset := 0, cidValue := 0,
            bundlesize := MODEL_HEADER_SIZE + 2 * min (max maxFills 1) d.tree.nodes.length,
            fragoffset := 0, paylen := 0, fragsize := 0,
            createsec := sysnow, createseq := d.createseq }).snd.live,
          q.snd.exprtime = 0 := by
        intro q hq
        rcases bp_enqueue_live_mem _ _ _ hq with hq | hq
        · exact h q hq
        · rw [hq]
      by_cases hf2 : (bp_enqueue store
          { exprtime := 0, cteboffset := 0, cidValue := 0,
            bundlesize := MODEL_HEADER_SIZE + 2 * min (max maxFills 1) d.tree.nodes.length,
            fragoffset := 0, paylen := 0, fragsize := 0,
            createsec := sysnow, createseq := d.createseq }).fst ≤ 0
      · rw [if_pos hf2] at hp
        exact ih _ _ _ _ _ hen p hp
      · rw [if_neg hf2] at hp
        exact ih _ _ _ _ _ hen p hp

theorem store_dacs_bundles_zero (maxFills : Nat) (d : BpDacsBundle)
    (store : BpStore StoredBundle) (sysnow flags : Nat)
    (h : ∀ p ∈ store.live, p.snd.exprtime = 0) :
    ∀ p ∈ (store_dacs_bundles maxFills d store sysnow flags).snd.snd.fst.live,
      p.snd.exprtime = 0 := by
  intro p hp
  rw [store_dacs_bundles] at hp
  have := store_dacs_loop_zero maxFills sysnow (d.tree.nodes.length + 1) d store flags
    BP_SUCCESS false h
  by_cases hf : (store_dacs_loop maxFills sysnow (d.tree.nodes.length + 1) d store flags
      BP_SUCCESS false).snd.snd.snd.snd = true
  · simp only [hf, if_true] at hp
    exact this p hp
  · simp only [hf, if_false] at hp
    exact this p hp

theorem dacs_rate_check_zero (rate maxFills sysnow : Nat) :
    ∀ (l : List BpDacsBundle) (store : BpStore StoredBundle) (flags : Nat),
      (∀ p ∈ store.live, p.snd.exprtime = 0) →
      ∀ p ∈ (dacs_rate_check rate maxFills sysnow l store flags).snd.fst.live,
        p.snd.exprtime = 0 := by
  intro l
  induction l with
  | nil => intro store flags h p hp; exact h p hp
  | cons d t ih =>
    intro store flags h p hp
    rw [dacs_rate_check] at hp
    by_cases hc : 0 < rate ∧ d.last_dacs + rate ≤ sysnow ∧ ¬d.tree.nodes.isEmpty
    · rw [if_pos hc] at hp
      exact ih _ _ (fun q hq => store_dacs_bundles_zero maxFills d store sysnow flags h q hq)
        p hp
    · rw [if_neg hc] at hp
      exact ih _ _ h p hp

theorem wrap_slot_eq (A : Nat) (tbl : ActiveTable) (hA : 1 ≤ A)
    (hinv : TableInv A tbl) (holt : tbl.oldest_cid < tbl.current_cid)
    (hocc : (tbl.sid.getD (tbl.current_cid % A) none).isSome = true) :
    tbl.current_cid % A = tbl.oldest_cid % A := by
  obtain ⟨cid, hlt, hge, hmod⟩ := hinv.2.2.2 (tbl.current_cid % A)
    (Nat.mod_lt _ (by omega)) hocc
  have hmeq : cid % A = tbl.current_cid % A := hmod
  have hdvd : A ∣ tbl.current_cid - cid := (Nat.modEq_iff_dvd' (by omega)).mp hmeq
  have hle : A ≤ tbl.current_cid - cid := Nat.le_of_dvd (by omega) hdvd
  have hwin : tbl.current_cid - tbl.oldest_cid ≤ A := hinv.2.1
  have hco : cid = tbl.oldest_cid := by omega
  rw [← hmeq, hco]

theorem tableInv_skip (A : Nat) (tbl : ActiveTable) (hinv : TableInv A tbl)
    (holt : tbl.oldest_cid < tbl.current_cid)
    (hvac : tbl.sid.getD (tbl.oldest_cid % A) none = none) :
    TableInv A { tbl with oldest_cid := tbl.oldest_cid + 1 } := by
  obtain ⟨h1, h2, h3, h4⟩ := hinv
  refine ⟨?_, ?_, h3, ?_⟩
  · show tbl.oldest_cid + 1 ≤ tbl.current_cid
    omega
  · show tbl.current_cid - (tbl.oldest_cid + 1) ≤ A
    omega
  · intro i hi hocc
    have hocc2 : (tbl.sid.getD i none).isSome = true := hocc
    obtain ⟨cid, hlt, hge, hmod⟩ := h4 i hi hocc2
    refine ⟨cid, hlt, ?_, hmod⟩
    show tbl.oldest_cid + 1 ≤ cid
    rcases Nat.eq_or_lt_of_le hge with hco | hco
    · exfalso
      rw [← hco] at hmod
      rw [← hmod, hvac] at hocc2
      simp at hocc2
    · omega

theorem tableInv_clear_skip (A : Nat) (tbl : ActiveTable) (hA : 1 ≤ A)
    (hinv : TableInv A tbl) (holt : tbl.oldest_cid < tbl.current_cid) :
    TableInv A { tbl with
      sid := tbl.sid.set (tbl.oldest_cid % A) none,
      oldest_cid := tbl.oldest_cid + 1 } := by
  obtain ⟨h1, h2, h3, h4⟩ := hinv
  refine ⟨?_, ?_, ?_, ?_⟩
  · show tbl.oldest_cid + 1 ≤ tbl.current_cid
    omega
  · show tbl.current_cid - (tbl.oldest_cid + 1) ≤ A
    omega
  · show (tbl.sid.set (tbl.oldest_cid % A) none).length = A
    rw [List.length_set]
    exact h3
  · intro i hi hocc
    have hocc2 : ((tbl.sid.set (tbl.oldest_cid % A) none).getD i none).isSome = true := hocc
    by_cases hieq : i = tbl.oldest_cid % A
    · rw [hieq, listGetD_set_self _ _ _ _ (by rw [h3]; exact Nat.mod_lt _ (by omega))] at hocc2
      simp at hocc2
    · rw [listGetD_set_ne _ _ _ _ _ hieq] at hocc2
      obtain ⟨cid, hlt, hge, hmod⟩ := h4 i hi hocc2
      refine ⟨cid, hlt, ?_, hmod⟩
      show tbl.oldest_cid + 1 ≤ cid
      rcases Nat.eq_or_lt_of_le hge with hco | hco
      · exfalso
        rw [← hco] at hmod
        exact hieq hmod.symm
      · omega

theorem tableInv_clear (A : Nat) (tbl : ActiveTable) (hA : 1 ≤ A)
    (hinv : TableInv A tbl) :
    TableInv A { tbl with sid := tbl.sid.set (tbl.oldest_cid % A) none } := by
  obtain ⟨h1, h2, h3, h4⟩ := hinv
  refine ⟨h1, h2, ?_, ?_⟩
  · show (tbl.sid.set (tbl.oldest_cid % A) none).length = A
    rw [List.length_set]
    exact h3
  · intro i hi hocc
    have hocc2 : ((tbl.sid.set (tbl.oldest_cid % A) none).getD i none).isSome = true := hocc
    by_cases hieq : i = tbl.oldest_cid % A
    · rw [hieq, listGetD_set_self _ _ _ _ (by rw [h3]; exact Nat.mod_lt _ (by omega))] at hocc2
      simp at hocc2
    · rw [listGetD_set_ne _ _ _ _ _ hieq] at hocc2
      exact h4 i hi hocc2

theorem load_dequeue_loop_safe (sysnow : Nat) :
    ∀ (fuel : Nat) (data : BpStore StoredBundle) (stats : BpStats)
      (status : Int) (flags : Nat) (s : Nat) (r : StoredBundle),
      (load_dequeue_loop sysnow fuel data stats status flags).snd.snd.snd.snd
        = some (s, r) →
      ¬(r.exprtime ≠ 0 ∧ r.exprtime ≤ sysnow) := by
  intro fuel
  induction fuel with
  | zero => intro data stats status flags s r h; simp [load_dequeue_loop] at h
  | succ fuel ih =>
    intro data stats status flags s r h
    rw [load_dequeue_loop] at h
    cases hdq : (bp_dequeue data).snd.fst with
    | some p =>
      obtain ⟨s1, r1⟩ := p
      simp only [hdq] at h
      by_cases hex : r1.exprtime ≠ 0 ∧ r1.exprtime ≤ sysnow
      · rw [if_pos hex] at h
        exact ih _ _ _ _ _ _ h
      · rw [if_neg hex] at h
        simp at h
        rw [← h.2]
        exact hex
    | none =>
      simp only [hdq] at h
      by_cases hts : (bp_dequeue data).fst = BP_TIMEOUT
      · rw [if_pos hts] at h
        simp at h
      · rw [if_neg hts] at h
        simp at h

theorem load_active_loop_safe (A timeoutv : Nat) (cid_reuse : Bool) (wrap : Nat)
    (sysnow : Nat) (hA : 1 ≤ A) :
    ∀ (fuel : Nat) (st : LoopState),
      TableInv A st.tbl →
      (∀ s r, st.ds = some (s, r) → ¬(r.exprtime ≠ 0 ∧ r.exprtime ≤ sysnow)) →
      ∀ s r, (load_active_loop A timeoutv cid_reuse wrap sysnow fuel st).ds = some (s, r) →
        ¬(r.exprtime ≠ 0 ∧ r.exprtime ≤ sysnow) := by
  intro fuel
  induction fuel with
  | zero =>
    intro st hinv hds s r h
    rw [load_active_loop] at h
    exact hds s r h
  | succ fuel ih =>
    intro st hinv hds s r h
    rw [load_active_loop] at h
    by_cases hg : st.broke = false ∧ st.ds = none ∧ st.tbl.oldest_cid < st.tbl.current_cid
    · rw [if_pos hg] at h
      obtain ⟨hbroke, hdsn, holt⟩ := hg
      cases hslot : st.tbl.sid.getD (st.tbl.oldest_cid % A) none with
      | none =>
        simp only [hslot] at h
        refine ih _ (tableInv_skip A st.tbl hinv holt hslot) ?_ s r h
        intro s1 r1 hc
        have hc2 : st.ds = some (s1, r1) := hc
        rw [hdsn] at hc2
        cases hc2
      | some s0 =>
        simp only [hslot] at h
        cases hret : (bp_retrieve st.data s0).snd with
        | some r0 =>
          simp only [hret] at h
          by_cases hex : r0.exprtime ≠ 0 ∧ r0.exprtime ≤ sysnow
          · rw [if_pos hex] at h
            refine ih _ (tableInv_clear_skip A st.tbl hA hinv holt) ?_ s r h
            intro s1 r1 hc
            have hc2 : st.ds = some (s1, r1) := hc
            rw [hdsn] at hc2
            cases hc2
          · rw [if_neg hex] at h
            by_cases hto : timeoutv ≠ 0 ∧
                st.tbl.retx.getD (st.tbl.oldest_cid % A) 0 + timeoutv ≤ sysnow
            · rw [if_pos hto] at h
              by_cases hcr : cid_reuse = true
              · rw [if_pos hcr] at h
                have h2 : (some (s0, r0) : Option (Nat × StoredBundle)) = some (s, r) := h
                simp at h2
                rw [← h2.2]
                exact hex
              · rw [if_neg hcr] at h
                have h2 : (some (s0, r0) : Option (Nat × StoredBundle)) = some (s, r) := h
                simp at h2
                rw [← h2.2]
                exact hex
            · rw [if_neg hto] at h
              cases hslot2 : st.tbl.sid.getD (st.tbl.current_cid % A) none with
              | none =>
                simp only [hslot2] at h
                have h2 : st.ds = some (s, r) := h
                rw [hdsn] at h2
                cases h2
              | some s2 =>
                simp only [hslot2] at h
                by_cases hw1 : wrap = BP_WRAP_RESEND
                · rw [if_pos hw1] at h
                  cases hret2 : (bp_retrieve st.data s2).snd with
                  | some r2 =>
                    simp only [hret2] at h
                    have hati : st.tbl.current_cid % A = st.tbl.oldest_cid % A :=
                      wrap_slot_eq A st.tbl hA hinv holt (by rw [hslot2]; rfl)
                    rw [hati, hslot] at hslot2
                    have hs2 : s0 = s2 := by
                      injection hslot2
                    rw [← hs2, hret] at hret2
                    have hr2 : r0 = r2 := by
                      injection hret2
                    have h2 : (some (s2, r2) : Option (Nat × StoredBundle)) = some (s, r) := h
                    simp at h2
                    rw [← h2.2, ← hr2]
                    exact hex
                  | none =>
                    simp only [hret2] at h
                    have h2 : st.ds = some (s, r) := h
                    rw [hdsn] at h2
                    cases h2
                · rw [if_neg hw1] at h
                  by_cases hw2 : wrap = BP_WRAP_BLOCK
                  · rw [if_pos hw2] at h
                    have h2 : st.ds = some (s, r) := h
                    rw [hdsn] at h2
                    cases h2
                  · rw [if_neg hw2] at h
                    have h2 : st.ds = some (s, r) := h
                    rw [hdsn] at h2
                    cases h2
        | none =>
          simp only [hret] at h
          refine ih _ (tableInv_clear A st.tbl hA hinv) ?_ s r h
          intro s1 r1 hc
          have hc2 : st.ds = some (s1, r1) := hc
          rw [hdsn] at hc2
          cases hc2
    · rw [if_neg hg] at h
      exact hds s r h

theorem load_transmit_emitted (A : Nat) (bufSize : Option Nat) (sysnow : Nat)
    (fromDacs : Bool) (tbl : ActiveTable) (data dacs : BpStore StoredBundle)
    (stats : BpStats) (ds : Option (Nat × StoredBundle)) (newcid : Bool) (ati : Nat)
    (status : Int) (flags : Nat) (em : StoredBundle)
    (h : (load_transmit A bufSize sysnow fromDacs tbl data dacs stats ds newcid ati
        status flags).snd.snd.snd.snd.snd.snd = some em) :
    ∃ p, ds = some p ∧ em.exprtime = p.snd.exprtime := by
  cases ds with
  | none => simp [load_transmit] at h
  | some p =>
    obtain ⟨s, r⟩ := p
    refine ⟨(s, r), rfl, ?_⟩
    simp only [load_transmit] at h
    split at h
    · split at h
      · split at h
        · simp at h
          rw [← h]
        · simp at h
          rw [← h]
      · split at h
        · simp at h
          rw [← h]
        · simp at h
          rw [← h]
    · split at h
      · simp at h
      · simp at h

theorem bplib_load_safety (ch : BpChannel) (st : Stores) (bufSize : Option Nat) (sysnow : Nat)
    (hA : 1 ≤ ch.attributes_active_table_size)
    (hinv : TableInv ch.attributes_active_table_size ch.active_table)
    (hdacs : ∀ p ∈ st.dacs.live, p.snd.exprtime = 0) :
    ∀ r, (bplib_load ch st bufSize sysnow).emitted = some r →
      r.exprtime ≠ 0 → sysnow < r.exprtime := by
  intro r hem hne
  by_contra hge
  push_neg at hge
  set rc := dacs_rate_check ch.dacs_rate ch.attributes_max_fills_per_dacs sysnow
    ch.dacs_bundle st.dacs 0 with hrc
  set dq := bp_dequeue rc.snd.fst with hdq
  set ds0 : Option (Nat × StoredBundle) :=
    if dq.fst = BP_SUCCESS then dq.snd.fst else none with hds0
  set flags2 : Nat :=
    if dq.fst = BP_SUCCESS then rc.snd.snd ||| BP_FLAG_ROUTENEEDED else rc.snd.snd
    with hflags2
  set LS := load_active_loop ch.attributes_active_table_size ch.timeout ch.cid_reuse
    ch.wrap_response sysnow
    (2 * (ch.active_table.current_cid - ch.active_table.oldest_cid) + 1)
    { tbl := ch.active_table, data := st.data, stats := ch.stats, ds := ds0,
      ati := 0, newcid := true, status := BP_SUCCESS, flags := flags2, broke := false }
    with hLS
  have hds0safe : ∀ s0 r0, ds0 = some (s0, r0) →
      ¬(r0.exprtime ≠ 0 ∧ r0.exprtime ≤ sysnow) := by
    intro s0 r0 hc
    rw [hds0] at hc
    by_cases hfd : dq.fst = BP_SUCCESS
    · rw [if_pos hfd] at hc
      rw [hdq] at hc
      have hlk := bp_dequeue_lookup _ _ _ hc
      have hmem := storeLookup_mem _ _ _ hlk
      have hz : r0.exprtime = 0 := by
        have := dacs_rate_check_zero ch.dacs_rate ch.attributes_max_fills_per_dacs sysnow
          ch.dacs_bundle st.dacs 0 hdacs (s0, r0) (by rw [← hrc]; exact hmem)
        exact this
      intro hcon
      exact hcon.1 hz
    · rw [if_neg hfd] at hc
      cases hc
  have hloopsafe := load_active_loop_safe ch.attributes_active_table_size ch.timeout
    ch.cid_reuse ch.wrap_response sysnow hA
    (2 * (ch.active_table.current_cid - ch.active_table.oldest_cid) + 1)
    { tbl := ch.active_table, data := st.data, stats := ch.stats, ds := ds0,
      ati := 0, newcid := true, status := BP_SUCCESS, flags := flags2, broke := false }
    hinv hds0safe
  have hem2 : ((fun dqr : BpStore StoredBundle × BpStats × Int × Nat ×
        Option (Nat × StoredBundle) =>
      load_transmit ch.attributes_active_table_size bufSize sysnow
        (decide (dq.fst = BP_SUCCESS)) LS.tbl dqr.fst dq.snd.snd dqr.snd.fst
        dqr.snd.snd.snd.snd LS.newcid LS.ati dqr.snd.snd.fst dqr.snd.snd.snd.fst)
      (match LS.ds with
       | some x => (LS.data, LS.stats, LS.status, LS.flags, some x)
       | none => load_dequeue_loop sysnow (LS.data.queue.length + 1) LS.data LS.stats
           LS.status LS.flags)).snd.snd.snd.snd.snd.snd = some r := hem
  cases hd : LS.ds with
  | some x =>
    simp only [hd] at hem2
    obtain ⟨p, hp, hexpr⟩ := load_transmit_emitted _ _ _ _ _ _ _ _ _ _ _ _ _ _ hem2
    have hxp : x = p := by injection hp
    have hsafe := hloopsafe x.fst x.snd (by rw [hd])
    refine hsafe ⟨?_, ?_⟩
    · rw [← hxp] at hexpr
      rw [← hexpr]
      exact hne
    · rw [← hxp] at hexpr
      rw [← hexpr]
      exact hge
  | none =>
    simp only [hd] at hem2
    obtain ⟨p, hp, hexpr⟩ := load_transmit_emitted _ _ _ _ _ _ _ _ _ _ _ _ _ _ hem2
    have hsafe := load_dequeue_loop_safe sysnow (LS.data.queue.length + 1) LS.data
      LS.stats LS.status LS.flags p.fst p.snd hp
    refine hsafe ⟨?_, ?_⟩
    · rw [← hexpr]
      exact hne
    · rw [← hexpr]
      exact hge

theorem bplib_load_expire_effects (ch : BpChannel) (st : Stores) (bufSize : Option Nat) (sysnow : Nat)
    (s : Nat) (r : StoredBundle)
    (hA : 1 ≤ ch.attributes_active_table_size)
    (hinv : TableInv ch.attributes_active_table_size ch.active_table)
    (hdb : ch.dacs_bundle = [])
    (hdacsq : st.dacs.queue = [])
    (hdataq : st.data.queue = [])
    (hco : ch.active_table.oldest_cid + 1 = ch.active_table.current_cid)
    (hslot : ch.active_table.sid.getD
      (ch.active_table.oldest_cid % ch.attributes_active_table_size) none = some s)
    (hlive : storeLookup st.data.live s = some r)
    (hrne : r.exprtime ≠ 0) (hrle : r.exprtime ≤ sysnow) :
    (bplib_load ch st bufSize sysnow).status = BP_TIMEOUT ∧
    (bplib_load ch st bufSize sysnow).emitted = none ∧
    storeLookup (bplib_load ch st bufSize sysnow).st.data.live s = none ∧
    (bplib_load ch st bufSize sysnow).ch.active_table.sid.getD
      (ch.active_table.oldest_cid % ch.attributes_active_table_size) none = none ∧
    (bplib_load ch st bufSize sysnow).ch.stats.expired = ch.stats.expired + 1 := by
  set rc := dacs_rate_check ch.dacs_rate ch.attributes_max_fills_per_dacs sysnow
    ch.dacs_bundle st.dacs 0 with hrc
  set dq := bp_dequeue rc.snd.fst with hdq
  set ds0 : Option (Nat × StoredBundle) :=
    if dq.fst = BP_SUCCESS then dq.snd.fst else none with hds0
  set flags2 : Nat :=
    if dq.fst = BP_SUCCESS then rc.snd.snd ||| BP_FLAG_ROUTENEEDED else rc.snd.snd
    with hflags2
  set LS := load_active_loop ch.attributes_active_table_size ch.timeout ch.cid_reuse
    ch.wrap_response sysnow
    (2 * (ch.active_table.current_cid - ch.active_table.oldest_cid) + 1)
    { tbl := ch.active_table, data := st.data, stats := ch.stats, ds := ds0,
      ati := 0, newcid := true, status := BP_SUCCESS, flags := flags2, broke := false }
    with hLS
  have hrcv : rc = ([], st.dacs, 0) := by
    rw [hrc, hdb]
    rfl
  have hdqv : dq = (BP_TIMEOUT, none, st.dacs) := by
    rw [hdq, hrcv]
    show bp_dequeue st.dacs = _
    rw [bp_dequeue, hdacsq]
  have hds0v : ds0 = none := by
    rw [hds0, hdqv]
    rw [if_neg (fun hcc => by simp [BP_TIMEOUT, BP_SUCCESS] at hcc)]
  have hflags2v : flags2 = 0 := by
    rw [hflags2, hdqv, hrcv]
    rw [if_neg (fun hcc => by simp [BP_TIMEOUT, BP_SUCCESS] at hcc)]
  rw [hds0v, hflags2v] at hLS
  have hfuel : 2 * (ch.active_table.current_cid - ch.active_table.oldest_cid) + 1 = 3 := by
    omega
  rw [hfuel] at hLS
  have hLSval : LS =
      { tbl := { ch.active_table with
          sid := ch.active_table.sid.set
            (ch.active_table.oldest_cid % ch.attributes_active_table_size) none,
          oldest_cid := ch.active_table.oldest_cid + 1 },
        data := bp_relinquish st.data s,
        stats := { ch.stats with expired := ch.stats.expired + 1 },
        ds := none,
        ati := ch.active_table.oldest_cid % ch.attributes_active_table_size,
        newcid := true, status := BP_SUCCESS, flags := 0, broke := false } := by
    rw [hLS]
    rw [load_active_loop]
    rw [if_pos ⟨rfl, rfl,
      by show ch.active_table.oldest_cid < ch.active_table.current_cid; omega⟩]
    simp only [hslot]
    simp only [bp_retrieve, hlive]
    rw [if_pos ⟨hrne, hrle⟩]
    rw [load_active_loop]
    rw [if_neg (fun hcon => absurd hcon.2.2
      (by show ¬(ch.active_table.oldest_cid + 1 < ch.active_table.current_cid); omega))]
  have hdlgen : ∀ (fuel : Nat) (data : BpStore StoredBundle) (stats : BpStats)
      (status : Int) (flags : Nat), data.queue = [] →
      load_dequeue_loop sysnow (fuel + 1) data stats status flags
        = (data, stats, BP_TIMEOUT, flags, none) := by
    intro fuel data stats status flags hq
    rw [load_dequeue_loop]
    simp [bp_dequeue, hq]
  have hb : bplib_load ch st bufSize sysnow =
      ((fun dqr : BpStore StoredBundle × BpStats × Int × Nat ×
            Option (Nat × StoredBundle) =>
        (fun tr : ActiveTable × BpStore StoredBundle × BpStore StoredBundle × BpStats ×
              Int × Nat × Option StoredBundle =>
          ({ status := tr.snd.snd.snd.snd.fst,
             ch :=
              { ch with
                dacs_bundle := rc.fst,
                active_table := tr.fst,
                stats :=
                  { tr.snd.snd.snd.fst with
                    active := tr.fst.current_cid - tr.fst.oldest_cid } },
             st :=
              { st with
                data := tr.snd.fst,
                dacs := tr.snd.snd.fst },
             emitted := tr.snd.snd.snd.snd.snd.snd,
             flags := tr.snd.snd.snd.snd.snd.fst } : LoadResult))
        (load_transmit ch.attributes_active_table_size bufSize sysnow
          (decide (dq.fst = BP_SUCCESS)) LS.tbl dqr.fst dq.snd.snd dqr.snd.fst
          dqr.snd.snd.snd.snd LS.newcid LS.ati dqr.snd.snd.fst dqr.snd.snd.snd.fst))
      (match LS.ds with
       | some x => (LS.data, LS.stats, LS.status, LS.flags, some x)
       | none => load_dequeue_loop sysnow (LS.data.queue.length + 1) LS.data LS.stats
           LS.status LS.flags)) := rfl
  rw [hLSval] at hb
  simp only [] at hb
  have hq2 : (bp_relinquish st.data s).queue = [] := hdataq
  rw [hq2] at hb
  rw [hdlgen _ _ _ _ _ hq2] at hb
  simp only [load_transmit] at hb
  rw [hdqv] at hb
  rw [hb]
  refine ⟨rfl, rfl, ?_, ?_, rfl⟩
  · show storeLookup (st.data.live.filter fun kv => kv.fst ≠ s) s = none
    exact storeLookup_filter_self _ _
  · show (ch.active_table.sid.set
        (ch.active_table.oldest_cid % ch.attributes_active_table_size) none).getD
        (ch.active_table.oldest_cid % ch.attributes_active_table_size) none = none
    refine listGetD_set_self _ _ _ _ ?_
    rw [hinv.2.2.1]
    exact Nat.mod_lt _ (by omega)

/-- C2: under the active-table invariant (spec section 8) and with only
unexpirable DACS records in the DACS store, `bplib_load` never hands an
expired bundle to the caller: anything emitted with a nonzero `exprtime`
has `sysnow < exprtime`; moreover, when the walk reaches a stored bundle
whose lifetime has elapsed (the oldest active slot holds an expired live
record and nothing else is pending), the call relinquishes the stored
copy, vacates its active-table slot, increments the expired counter and
returns `BP_TIMEOUT` with no bundle emitted. -/
theorem c2_load_never_emits_expired (ch : BpChannel) (st : Stores)
    (bufSize : Option Nat) (sysnow : Nat)
    (hA : 1 ≤ ch.attributes_active_table_size)
    (hinv : TableInv ch.attributes_active_table_size ch.active_table)
    (hdacs : ∀ p ∈ st.dacs.live, p.snd.exprtime = 0) :
    (∀ r, (bplib_load ch st bufSize sysnow).emitted = some r →
      r.exprtime ≠ 0 → sysnow < r.exprtime) ∧
    (∀ s r, ch.dacs_bundle = [] → st.dacs.queue = [] → st.data.queue = [] →
      ch.active_table.oldest_cid + 1 = ch.active_table.current_cid →
      ch.active_table.sid.getD
        (ch.active_table.oldest_cid % ch.attributes_active_table_size) none = some s →
      storeLookup st.data.live s = some r →
      r.exprtime ≠ 0 → r.exprtime ≤ sysnow →
      (bplib_load ch st bufSize sysnow).status = BP_TIMEOUT ∧
      (bplib_load ch st bufSize sysnow).emitted = none ∧
      storeLookup (bplib_load ch st bufSize sysnow).st.data.live s = none ∧
      (bplib_load ch st bufSize sysnow).ch.active_table.sid.getD
        (ch.active_table.oldest_cid % ch.attributes_active_table_size) none = none ∧
      (bplib_load ch st bufSize sysnow).ch.stats.expired = ch.stats.expired + 1) := by
  constructor
  · exact bplib_load_safety ch st bufSize sysnow hA hinv hdacs
  · intro s r hdb hdacsq hdataq hco hslot hlive hrne hrle
    exact bplib_load_expire_effects ch st bufSize sysnow s r hA hinv hdb hdacsq hdataq
      hco hslot hlive hrne hrle

/-- C2 witness: loading from a channel whose single in-flight custody
bundle (storage id 5) expired at time 50, at system time 100. -/
theorem c2_load_never_emits_expired_witness :
    (bplib_load c2Ch c2St none 100).status = BP_TIMEOUT ∧
    (bplib_load c2Ch c2St none 100).emitted = none ∧
    storeLookup (bplib_load c2Ch c2St none 100).st.data.live 5 = none ∧
    (bplib_load c2Ch c2St none 100).ch.active_table.sid.getD
      (c2Ch.active_table.oldest_cid % c2Ch.attributes_active_table_size) none = none ∧
    (bplib_load c2Ch c2St none 100).ch.stats.expired = c2Ch.stats.expired + 1 :=
  (c2_load_never_emits_expired c2Ch c2St none 100 (by decide)
      (by unfold TableInv; decide)
      (by intro p hp; simp [c2St, fixStores] at hp)).2
    5 c2Rec (by decide) (by decide) (by decide) (by decide) (by decide) (by decide)
    (by decide) (by decide)

end Bplib
